import Mathlib

/-!
Verification of the sandbox lifecycle coordinator and notification reconciler
of the `minimal-sandbox-preview` repository.

Server side (src/src/lib/sandbox.ts): a module-level `Map<string, SandboxState>`
keyed by sandboxId, an idempotent `startSandbox` entry point, a provisioning run
(`initializeSandbox`) executed against the sandbox runtime, TTL-based reclaim
(`touchSandbox` / `scheduleDestroy` / `destroySandbox`), and the WebSocket
subscription route (src/src/pages/api/ws.ts).

Client side (src/src/lib/sandbox-preview.ts): the `SandboxPreview` reconciler
with a push (WebSocket) channel, a deferred poll fallback, a hard deadline,
and terminal settlement.

JavaScript `string | null` fields tested with `if (x)` are modelled as
`Option String` together with `truthy`, which is JS truthiness on such a
value: present and non-empty.
-/

namespace SandboxModel

/-- JS truthiness of a `string | null` value: non-null and non-empty. -/
def truthy : Option String → Bool
  | none => false
  | some s => !(s == "")

/-- Char-list prefix test (used to embed JS `String.prototype.includes`). -/
def isPrefixList : List Char → List Char → Bool
  | [], _ => true
  | _ :: _, [] => false
  | a :: as, b :: bs => a == b && isPrefixList as bs

/-- JS `hay.includes(needle)`: `needle` occurs as a contiguous substring. -/
def strContainsSub (hay needle : String) : Bool :=
  (List.range (hay.data.length + 1)).any fun i =>
    isPrefixList needle.data (hay.data.drop i)

/-- `SANDBOX_TTL_MS = 5 * 60 * 1000` from src/src/lib/sandbox.ts. -/
def SANDBOX_TTL_MS : Nat := 5 * 60 * 1000

/-- The per-id entry of the module-level `sandboxes` map
(interface `SandboxState` in src/src/lib/sandbox.ts).
`connections : Set<WebSocket>` is modelled as a list of abstract handle ids;
`destroyTimer` holds the absolute time at which the scheduled destroy fires
(`null` = no timer scheduled); `sandboxBinding` (an opaque runtime binding,
never branched on) is omitted. -/
structure SandboxState where
  isInitialized : Bool
  isInitializing : Bool
  previewUrl : Option String
  currentStep : String
  initError : Option String
  connections : List Nat
  lastActivity : Nat
  destroyTimer : Option Nat
  deriving Repr, DecidableEq

/-- The fresh entry inserted by `getOrCreateState` for an unseen id
(`lastActivity: Date.now()` becomes the explicit `now` argument). -/
def freshState (now : Nat) : SandboxState :=
  { isInitialized := false
    isInitializing := false
    previewUrl := none
    currentStep := ""
    initError := none
    connections := []
    lastActivity := now
    destroyTimer := none }

/-- The module-level `sandboxes` map, as a function from id to entry. -/
def Registry := String → Option SandboxState

/-- The empty map. -/
def emptyRegistry : Registry := fun _ => none

/-- `sandboxes.set(id, s)`. -/
def setEntry (reg : Registry) (sandboxId : String) (s : SandboxState) : Registry :=
  fun k => if k = sandboxId then some s else reg k

/-- Mutate the entry of `sandboxId` in place, if present. -/
def updEntry (reg : Registry) (sandboxId : String) (f : SandboxState → SandboxState) :
    Registry :=
  fun k => if k = sandboxId then Option.map f (reg k) else reg k

/-- `sandboxes.delete(id)`. -/
def delEntry (reg : Registry) (sandboxId : String) : Registry :=
  fun k => if k = sandboxId then none else reg k

/-- `getOrCreateState` (src/src/lib/sandbox.ts, lines 76-93): returns the
existing entry or inserts a fresh one.  The returned pair is the updated map
and the entry the caller works with. -/
def getOrCreateState (sandboxId : String) (now : Nat) (reg : Registry) :
    Registry × SandboxState :=
  match reg sandboxId with
  | some s => (reg, s)
  | none => (setEntry reg sandboxId (freshState now), freshState now)

/-- `scheduleDestroy`: clear any existing timer and schedule the destroy to
fire `SANDBOX_TTL_MS` from `now`. -/
def scheduleDestroy (sandboxId : String) (now : Nat) (reg : Registry) : Registry :=
  updEntry reg sandboxId fun s => { s with destroyTimer := some (now + SANDBOX_TTL_MS) }

/-- `touchSandbox`: update `lastActivity` and reschedule the TTL timer. -/
def touchSandbox (sandboxId : String) (now : Nat) (reg : Registry) : Registry :=
  scheduleDestroy sandboxId now
    (updEntry reg sandboxId fun s => { s with lastActivity := now })

/-- `destroySandbox` (registry effect): no-op on a missing id; otherwise the
container destroy is requested from the runtime (external, best-effort) and the
entry is removed, its timer cleared with it. -/
def destroySandbox (sandboxId : String) (reg : Registry) : Registry :=
  match reg sandboxId with
  | none => reg
  | some _ => delEntry reg sandboxId

/-- The projection returned by `getState` (src/src/lib/sandbox.ts, 160-168). -/
structure PublicState where
  isInitialized : Bool
  previewUrl : Option String
  currentStep : String
  initError : Option String
  deriving Repr, DecidableEq

/-- Project the public fields of an entry. -/
def publicOf (s : SandboxState) : PublicState :=
  { isInitialized := s.isInitialized
    previewUrl := s.previewUrl
    currentStep := s.currentStep
    initError := s.initError }

/-- `getState(sandboxId)`: note it calls `getOrCreateState`, so it returns the
possibly-extended map alongside the snapshot. -/
def getState (sandboxId : String) (now : Nat) (reg : Registry) :
    Registry × PublicState :=
  let (reg', s) := getOrCreateState sandboxId now reg
  (reg', publicOf s)

/-- `getConnections(sandboxId)`: also calls `getOrCreateState`. -/
def getConnections (sandboxId : String) (now : Nat) (reg : Registry) :
    Registry × List Nat :=
  let (reg', s) := getOrCreateState sandboxId now reg
  (reg', s.connections)

/-- Status discriminant of the object `startSandbox` returns. -/
inductive StartStatus
  | ready
  | initializing
  | error
  deriving Repr, DecidableEq

/-- The `startSandbox` return value (a union of three object shapes in the
source; fields absent in a shape are `none` here). -/
structure StartResult where
  status : StartStatus
  previewUrl : Option String
  wsEndpoint : String
  message : Option String
  deriving Repr, DecidableEq

/-- The ws endpoint string `/api/ws?sandboxId=` followed by the id. -/
def wsEndpointOf (sandboxId : String) : String :=
  "/api/ws?sandboxId=" ++ sandboxId

/-- `markReady` (src/src/lib/sandbox.ts, 182-189): set the preview url, flip to
initialized, record the "ready" step, touch (which starts the TTL timer).
The ready broadcast goes to subscriber handles (delivery is external). -/
def markReady (sandboxId : String) (previewUrl : String) (now : Nat)
    (reg : Registry) : Registry :=
  touchSandbox sandboxId now
    (updEntry reg sandboxId fun s =>
      { s with previewUrl := some previewUrl
               isInitialized := true
               isInitializing := false
               currentStep := "ready" })

/-- The catch-branch of `initializeSandbox`: record the error message, leave
the initializing phase, clear the step.  (`error.message` for an `Error`,
`"Unknown error"` otherwise; the argument is that computed message.) -/
def markFailed (sandboxId : String) (msg : String) (reg : Registry) : Registry :=
  updEntry reg sandboxId fun s =>
    { s with initError := some msg
             isInitializing := false
             currentStep := "" }

/-- A progress update inside the provisioning run: `state.currentStep = step`
(the broadcast itself is external delivery). -/
def setStep (sandboxId : String) (step : String) (reg : Registry) : Registry :=
  updEntry reg sandboxId fun s => { s with currentStep := step }

/-- Result of one `startSandbox` call: the updated map, the returned object,
and whether this call launched the provisioning run (i.e. took the final
branch that calls `initializeSandbox`). -/
structure StartOut where
  reg : Registry
  res : StartResult
  launched : Bool

/-- `startSandbox` (src/src/lib/sandbox.ts, 394-452).  Branch order is the
source's: ready (initialized with truthy url, touch + return url), already
initializing, previous error (returned verbatim, no retry), otherwise mark
initializing and launch the run.  `host` is forwarded to the launched run. -/
def startSandbox (sandboxId host : String) (now : Nat) (reg : Registry) :
    StartOut :=
  let _ := host
  let p := getOrCreateState sandboxId now reg
  let reg0 := p.1
  let s := p.2
  if s.isInitialized && truthy s.previewUrl then
    { reg := touchSandbox sandboxId now reg0
      res := { status := .ready
               previewUrl := s.previewUrl
               wsEndpoint := wsEndpointOf sandboxId
               message := none }
      launched := false }
  else if s.isInitializing then
    { reg := reg0
      res := { status := .initializing
               previewUrl := none
               wsEndpoint := wsEndpointOf sandboxId
               message := some "Initialization already in progress" }
      launched := false }
  else if truthy s.initError then
    { reg := reg0
      res := { status := .error
               previewUrl := none
               wsEndpoint := wsEndpointOf sandboxId
               message := s.initError }
      launched := false }
  else
    { reg := updEntry reg0 sandboxId fun st => { st with isInitializing := true }
      res := { status := .initializing
               previewUrl := none
               wsEndpoint := wsEndpointOf sandboxId
               message := some "Connect to WebSocket for progress updates" }
      launched := true }

/-- The four lifecycle phases of the spec's data model, read off an entry
exactly the way `startSandbox` dispatches on it (same tests, same order). -/
inductive Phase
  | Idle
  | Initializing
  | Ready
  | Failed
  deriving Repr, DecidableEq

/-- Classify an entry by the `startSandbox` dispatch order. -/
def phase (s : SandboxState) : Phase :=
  if s.isInitialized && truthy s.previewUrl then .Ready
  else if s.isInitializing then .Initializing
  else if truthy s.initError then .Failed
  else .Idle

/-! ## The provisioning run (`initializeSandbox`, src/src/lib/sandbox.ts 192-373)

The run's interactions with the sandbox runtime are awaited RPC calls; their
outcomes are collected in an `InitOracle` (one entry per call the code can
make, a thrown rejection being `Except.error` with the thrown `Error`'s
message; a non-`Error` throw reaches the outer catch as `"Unknown error"` and
is not modelled separately).  The run is then a pure function of the oracle,
returning the terminal outcome together with the ordered list of runtime
actions it performed. -/

/-- The runtime calls the provisioning run can perform, in source order. -/
inductive Action
  | probe          -- `sandbox.getExposedPorts()` (recovery check)
  | mkdirWorkspace -- `sandbox.mkdir("/workspace", ...)`
  | writePackageJson
  | writeServerJs
  | startProc      -- `sandbox.startProcess("node server.js", ...)`
  | healthCheck    -- one `sandbox.exec('curl ... /health ...')` attempt
  | exposeCall     -- `sandbox.exposePort(3001, ...)`
  deriving Repr, DecidableEq

/-- Terminal outcome of one provisioning run: `markReady(url)` or the catch
branch with the recorded message. -/
inductive RunOutcome
  | ready (url : String)
  | failed (msg : String)
  deriving Repr, DecidableEq

/-- Outcome plus the runtime actions performed, in order. -/
structure RunOut where
  outcome : RunOutcome
  acts : List Action
  deriving Repr, DecidableEq

/-- Runtime responses for one provisioning run.  `probeR` yields the port
numbers already exposed (the code normalizes `{ports: [...]}` versus a bare
array, then searches for `p.port === 3001`); `healthR i` is the stdout of the
`i`-th health `exec` (or its thrown message); `exposeR` is the exposed url or
the thrown message. -/
structure InitOracle where
  probeR : Except String (List Nat)
  mkdirR : Except String Unit
  writePkgR : Except String Unit
  writeSrvR : Except String Unit
  startProcR : Except String Unit
  healthR : Nat → Except String String
  exposeR : Except String String

/-- The preview URL the code reconstructs from the known pattern:
`https://3001-${sandboxId}-express.${host}/`. -/
def recoveredUrl (sandboxId host : String) : String :=
  "https://3001-" ++ sandboxId ++ "-express." ++ host ++ "/"

/-- The expose-failure test from the catch around `exposePort`:
`msg.includes("PortAlreadyExposedError") || msg.includes("already exposed")`. -/
def conflictMsg (msg : String) : Bool :=
  strContainsSub msg "PortAlreadyExposedError" ||
    strContainsSub msg "already exposed"

/-- The health-check loop (`for (let i = 0; i < 10; i++) ...`): at attempt `i`
with `fuel` attempts left, an exec throw aborts the run, stdout containing
`"ok"` breaks with success, otherwise the loop continues.  Returns the loop
result and the number of health checks performed. -/
def healthLoop (h : Nat → Except String String) : Nat → Nat → Except String Bool × Nat
  | _, 0 => (Except.ok false, 0)
  | i, fuel + 1 =>
    match h i with
    | .error e => (.error e, 1)
    | .ok out =>
      if strContainsSub out "ok" then (.ok true, 1)
      else
        let r := healthLoop h (i + 1) fuel
        (r.1, r.2 + 1)

/-- The full-provisioning tail of `initializeSandbox` (everything after the
recovery check): workspace setup, server start, health loop, port exposure
with the "already exposed" recovery, each failure flowing to the catch. -/
def runSetup (sandboxId host : String) (o : InitOracle) : RunOut :=
  match o.mkdirR with
  | .error e => ⟨.failed e, [.mkdirWorkspace]⟩
  | .ok _ =>
  match o.writePkgR with
  | .error e => ⟨.failed e, [.mkdirWorkspace, .writePackageJson]⟩
  | .ok _ =>
  match o.writeSrvR with
  | .error e => ⟨.failed e, [.mkdirWorkspace, .writePackageJson, .writeServerJs]⟩
  | .ok _ =>
  match o.startProcR with
  | .error e =>
    ⟨.failed e, [.mkdirWorkspace, .writePackageJson, .writeServerJs, .startProc]⟩
  | .ok _ =>
    let hr := healthLoop o.healthR 0 10
    let base :=
      [Action.mkdirWorkspace, .writePackageJson, .writeServerJs, .startProc] ++
        List.replicate hr.2 Action.healthCheck
    match hr.1 with
    | .error e => ⟨.failed e, base⟩
    | .ok false => ⟨.failed "Server failed to start within timeout", base⟩
    | .ok true =>
      match o.exposeR with
      | .ok url => ⟨.ready url, base ++ [.exposeCall]⟩
      | .error msg =>
        if conflictMsg msg then
          ⟨.ready (recoveredUrl sandboxId host), base ++ [.exposeCall]⟩
        else
          ⟨.failed msg, base ++ [.exposeCall]⟩

/-- `initializeSandbox` as a pure function of the oracle (the registry effects
of its outcome are applied by `markReady` / `markFailed`).  The recovery check
runs first: a successful probe finding port 3001 short-circuits to ready with
the reconstructed URL; a probe throw is swallowed and full provisioning
proceeds. -/
def initSandboxRun (sandboxId host : String) (o : InitOracle) : RunOut :=
  match o.probeR with
  | .ok ports =>
    if ports.contains 3001 then
      ⟨.ready (recoveredUrl sandboxId host), [.probe]⟩
    else
      let r := runSetup sandboxId host o
      ⟨r.outcome, .probe :: r.acts⟩
  | .error _ =>
    let r := runSetup sandboxId host o
    ⟨r.outcome, .probe :: r.acts⟩

/-! ## System traces

The Worker isolate is single-threaded and event-driven: external requests
(`startSandbox` calls, WebSocket opens / status checks) and the suspension
points of the detached provisioning run interleave at event granularity.  A
`System` carries the registry plus two instrumentation counters used to state
the claims: `running id` counts in-flight provisioning runs for `id`, and
`launched id` counts the runs launched for `id` since its current entry was
created (reset when the entry is reclaimed — "while its entry exists").

Completion events model the run's own suspension points resuming.  They carry
the url / error message the run computed; the guards `url ≠ ""` and
`msg ≠ ""` record that an exposed-port URL is an `https://...` string and a
recorded failure message is a non-empty `Error` message or `"Unknown error"`
(JS truthiness makes the code's dispatch collapse on an empty string). -/

/-- Bump a counter map at one key. -/
def bumpAt (f : String → Nat) (sandboxId : String) : String → Nat :=
  fun k => if k = sandboxId then f k + 1 else f k

/-- Decrement a counter map at one key. -/
def decrAt (f : String → Nat) (sandboxId : String) : String → Nat :=
  fun k => if k = sandboxId then f k - 1 else f k

/-- Zero a counter map at one key. -/
def zeroAt (f : String → Nat) (sandboxId : String) : String → Nat :=
  fun k => if k = sandboxId then 0 else f k

/-- The coordinator-side system state. -/
structure System where
  reg : Registry
  running : String → Nat
  launched : String → Nat

/-- Initial system: empty registry, no runs. -/
def initSystem : System :=
  { reg := emptyRegistry, running := fun _ => 0, launched := fun _ => 0 }

/-- Events the coordinator reacts to. -/
inductive SEvent
  | startCall (sandboxId host : String) (now : Nat) -- the Astro action calls `startSandbox`
  | statusCheck (sandboxId : String) (now : Nat)    -- a bare `getState` (e.g. the ws route)
  | runProgress (sandboxId step : String)           -- the run updates `currentStep`
  | runReady (sandboxId url : String) (now : Nat)   -- the run reaches `markReady(url)`
  | runFailed (sandboxId msg : String)              -- the run's catch records `msg`
  | ttlFire (sandboxId : String) (now : Nat)        -- the scheduled destroy timer fires

/-- One event step.  Events whose guard does not hold (a completion with no
run in flight, a timer that is not scheduled for `now`) leave the system
unchanged. -/
def stepSys (sys : System) (e : SEvent) : System :=
  match e with
  | .startCall sandboxId host now =>
    let out := startSandbox sandboxId host now sys.reg
    if out.launched then
      { reg := out.reg
        running := bumpAt sys.running sandboxId
        launched := bumpAt sys.launched sandboxId }
    else
      { sys with reg := out.reg }
  | .statusCheck sandboxId now =>
    { sys with reg := (getState sandboxId now sys.reg).1 }
  | .runProgress sandboxId step =>
    if sys.running sandboxId > 0 then
      { sys with reg := setStep sandboxId step sys.reg }
    else sys
  | .runReady sandboxId url now =>
    if sys.running sandboxId > 0 && !(url == "") then
      { sys with reg := markReady sandboxId url now sys.reg
                 running := decrAt sys.running sandboxId }
    else sys
  | .runFailed sandboxId msg =>
    if sys.running sandboxId > 0 && !(msg == "") then
      { sys with reg := markFailed sandboxId msg sys.reg
                 running := decrAt sys.running sandboxId }
    else sys
  | .ttlFire sandboxId now =>
    match sys.reg sandboxId with
    | some s =>
      if s.destroyTimer = some now then
        { reg := destroySandbox sandboxId sys.reg
          running := sys.running
          launched := zeroAt sys.launched sandboxId }
      else sys
    | none => sys

/-- Run a sequence of events from the initial system. -/
def execSys (events : List SEvent) : System :=
  events.foldl stepSys initSystem

/-- A system is reachable when some event sequence produces it. -/
def ReachableSys (sys : System) : Prop :=
  ∃ events : List SEvent, execSys events = sys

/-! ### The per-entry invariant

Every reachable entry is in one of four shapes, directly corresponding to the
spec's `Idle / Initializing / Ready / Failed` phases, with the run and launch
counters determined by the shape. -/

/-- A never-launched entry: all flags clear, no timer. -/
def shapeIdle (s : SandboxState) (r l : Nat) : Prop :=
  s.isInitialized = false ∧ s.isInitializing = false ∧ s.previewUrl = none ∧
    s.initError = none ∧ s.currentStep = "" ∧ s.destroyTimer = none ∧
    r = 0 ∧ l = 0

/-- An entry with its single provisioning run in flight. -/
def shapeRunning (s : SandboxState) (r l : Nat) : Prop :=
  s.isInitialized = false ∧ s.isInitializing = true ∧ s.previewUrl = none ∧
    s.initError = none ∧ s.destroyTimer = none ∧
    r = 1 ∧ l = 1

/-- A ready entry: truthy stable url, TTL timer scheduled, run finished. -/
def shapeReady (s : SandboxState) (r l : Nat) : Prop :=
  s.isInitialized = true ∧ s.isInitializing = false ∧
    truthy s.previewUrl = true ∧ s.initError = none ∧
    s.currentStep = "ready" ∧ s.destroyTimer.isSome = true ∧
    r = 0 ∧ l = 1

/-- A failed entry: truthy error recorded, no timer, run finished. -/
def shapeFailed (s : SandboxState) (r l : Nat) : Prop :=
  s.isInitialized = false ∧ s.isInitializing = false ∧ s.previewUrl = none ∧
    truthy s.initError = true ∧ s.currentStep = "" ∧ s.destroyTimer = none ∧
    r = 0 ∧ l = 1

/-- Invariant for one id: absent ids have no runs and no launches; present
entries are in one of the four shapes. -/
def EntryInv : Option SandboxState → Nat → Nat → Prop
  | none, r, l => r = 0 ∧ l = 0
  | some s, r, l =>
    shapeIdle s r l ∨ shapeRunning s r l ∨ shapeReady s r l ∨ shapeFailed s r l

/-- The system invariant: every id satisfies its entry invariant. -/
def SysInv (sys : System) : Prop :=
  ∀ sandboxId,
    EntryInv (sys.reg sandboxId) (sys.running sandboxId) (sys.launched sandboxId)

/-! ## The WebSocket route (src/src/pages/api/ws.ts)

On upgrade, the route registers the server socket and immediately replays the
current snapshot to the new subscriber: ready / error / progress, or nothing
at all — there is deliberately no `connected` acknowledgment. -/

/-- A message the server can push on the WebSocket. -/
inductive WsOut
  | ready (previewUrl : String)
  | error (message : String)
  | progress (step : String)
  deriving Repr, DecidableEq

/-- The snapshot-replay block of the ws GET route (lines 27-37): the first
matching branch is sent, otherwise nothing. -/
def wsReplay (p : PublicState) : Option WsOut :=
  if p.isInitialized && truthy p.previewUrl then
    some (.ready (p.previewUrl.getD ""))
  else if truthy p.initError then
    some (.error (p.initError.getD ""))
  else if !(p.currentStep == "") then
    some (.progress p.currentStep)
  else
    none

/-- The registry-visible part of the ws GET route: `getConnections(sandboxId)`
then `getState(sandboxId)` (each a `getOrCreateState`), then the snapshot
replay.  Returns the updated registry and the message sent, if any. -/
def handleWsGet (sandboxId : String) (now : Nat) (reg : Registry) :
    Registry × Option WsOut :=
  let reg1 := (getConnections sandboxId now reg).1
  let st := getState sandboxId now reg1
  (st.1, wsReplay st.2)

end SandboxModel

namespace PreviewModel

open SandboxModel (StartStatus truthy)

/-! ## The client reconciler (`SandboxPreview`, src/src/lib/sandbox-preview.ts)

The browser is single-threaded and event-driven; the class's timers, the
WebSocket callbacks, and the resumption of the awaited `poll()` promise are
the events.  Timers are modelled by the absolute time at which they fire; a
fire event is a no-op unless its timer is scheduled for exactly that time.

One deliberate point of fidelity: the reconnect `setTimeout` scheduled in
`ws.onclose` is *not* stored in any field, so `stopAll()` cannot cancel it,
and the interval callback in `startPolling` checks `settled` only *before*
awaiting `poll()` — the resumed continuation after the await does not
re-check.  Both are modelled exactly as written. -/

/-- The option object with its defaults (constructor, lines 150-158). -/
structure COpts where
  pollFallbackDelay : Nat
  pollInterval : Nat
  wsReconnectDelay : Nat
  maxWaitMs : Nat
  deriving Repr, DecidableEq

/-- The defaults: 5 s, 5 s, 3 s, 120 s. -/
def defaultCOpts : COpts :=
  { pollFallbackDelay := 5000
    pollInterval := 5000
    wsReconnectDelay := 3000
    maxWaitMs := 120000 }

/-- A parsed WebSocket message (`data.type` dispatch); `ack` stands for any
non-substantive message such as `{ type: "connected" }`. -/
inductive WsMsg
  | progress (step : String)
  | ready (previewUrl : String)
  | error (message : String)
  | ack
  deriving Repr, DecidableEq

/-- Whether a message counts as "delivered" (progress / ready / error only). -/
def substantive : WsMsg → Bool
  | .progress _ => true
  | .ready _ => true
  | .error _ => true
  | .ack => false

/-- The resolved value of a `poll()` call: the Astro-action `{data, error}`
wrapper.  `fail` covers `result.error` set, a missing `data`, and a thrown
rejection — all ignored by the poll loop. -/
inductive PollResult
  | fail
  | ok (status : StartStatus) (previewUrl : Option String) (message : Option String)
  deriving Repr, DecidableEq

/-- An event emitted to the owner via `emit`. -/
inductive OwnerEv
  | progress (step : String)
  | ready (previewUrl : String)
  | error (message : String)
  deriving Repr, DecidableEq

/-- The reconciler's state.  `fallback` carries the scheduled fire time of
`pollFallbackTimer` plus a flag marking the re-armed (inner) callback;
`nextPollAt` is the next `setInterval` tick (present iff `pollTimer` is set);
`pollPending` counts `poll()` calls awaited but not yet resumed;
`wsReconnectAt` is the untracked reconnect `setTimeout`.  `emitted` is the
observable history of owner events, and `pollStartLog` records, at each
`startPolling` activation, the time, `wsHasDelivered`, and
`lastWsProgressAt`. -/
structure Client where
  settled : Bool
  wsHasDelivered : Bool
  lastWsProgressAt : Nat
  wsOpen : Bool
  wsReconnectAt : Option Nat
  fallback : Option (Nat × Bool)
  nextPollAt : Option Nat
  pollPending : Nat
  deadline : Option Nat
  emitted : List OwnerEv
  pollStartLog : List (Nat × Bool × Nat)
  deriving Repr, DecidableEq

/-- `init()` on the `initializing` path (watch start at time `t0`): connect
the WebSocket, schedule the poll fallback, schedule the hard deadline. -/
def initClient (opts : COpts) (t0 : Nat) : Client :=
  { settled := false
    wsHasDelivered := false
    lastWsProgressAt := 0
    wsOpen := true
    wsReconnectAt := none
    fallback := some (t0 + opts.pollFallbackDelay, false)
    nextPollAt := none
    pollPending := 0
    deadline := some (t0 + opts.maxWaitMs)
    emitted := []
    pollStartLog := [] }

/-- `stopAll()`: mark settled, clear the deadline, fallback and poll timers,
null the ws `onclose` and close it.  The in-flight `poll()` promise and the
untracked reconnect timeout are untouched — nothing in the code can cancel
them. -/
def stopAll (c : Client) : Client :=
  { c with settled := true
           deadline := none
           fallback := none
           nextPollAt := none
           wsOpen := false }

/-- `emitReady(previewUrl)`: `stopAll()` then emit the ready event. -/
def emitReady (previewUrl : String) (c : Client) : Client :=
  let c := stopAll c
  { c with emitted := c.emitted ++ [.ready previewUrl] }

/-- `emitError(message)`: `stopAll()` then emit the error event. -/
def emitError (message : String) (c : Client) : Client :=
  let c := stopAll c
  { c with emitted := c.emitted ++ [.error message] }

/-- `startPolling()` at time `now`: guarded against a duplicate interval;
otherwise start the interval (first tick one `pollInterval` later).  The log
entry is instrumentation. -/
def startPolling (opts : COpts) (now : Nat) (c : Client) : Client :=
  if c.nextPollAt.isSome then c
  else
    { c with nextPollAt := some (now + opts.pollInterval)
             pollStartLog :=
               c.pollStartLog ++ [(now, c.wsHasDelivered, c.lastWsProgressAt)] }

/-- `handleMessage(data)`: dispatch on `data.type`. -/
def handleMessage (m : WsMsg) (c : Client) : Client :=
  match m with
  | .progress step => { c with emitted := c.emitted ++ [.progress step] }
  | .ready previewUrl => emitReady previewUrl c
  | .error message => emitError message c
  | .ack => c

/-- Client events: a WebSocket message or close, the untracked reconnect
timeout firing, the poll-fallback timer firing, a poll interval tick (which
issues `poll()` and suspends), the resumption of an awaited `poll()`, and the
deadline firing. -/
inductive CEvent
  | wsMsg (now : Nat) (m : WsMsg)
  | wsClosed (now : Nat)
  | wsReconnectFire (now : Nat)
  | fallbackFire (now : Nat)
  | pollTick (now : Nat)
  | pollResume (now : Nat) (r : PollResult)
  | deadlineFire (now : Nat)

/-- One client event step (totalized: unscheduled fires are no-ops). -/
def stepClient (opts : COpts) (c : Client) (e : CEvent) : Client :=
  match e with
  | .wsMsg now m =>
    if c.wsOpen then
      let c :=
        if substantive m then
          { c with wsHasDelivered := true, lastWsProgressAt := now }
        else c
      handleMessage m c
    else c
  | .wsClosed now =>
    if c.wsOpen then
      { c with wsOpen := false
               wsReconnectAt :=
                 if c.settled then c.wsReconnectAt
                 else some (now + opts.wsReconnectDelay) }
    else c
  | .wsReconnectFire now =>
    -- the scheduled `() => this.connectWebSocket(endpoint)` has no settled
    -- check and cannot be cancelled by `stopAll`
    if c.wsReconnectAt = some now then
      { c with wsReconnectAt := none, wsOpen := true }
    else c
  | .fallbackFire now =>
    match c.fallback with
    | some (t, rearmed) =>
      if t = now then
        let c0 := { c with fallback := none }
        if c0.settled then c0
        else if rearmed then
          -- the inner callback: poll regardless of any interim ws traffic
          startPolling opts now c0
        else if c0.wsHasDelivered then
          let silentMs := now - c0.lastWsProgressAt
          if silentMs < opts.pollFallbackDelay then
            let t' := now + (opts.pollFallbackDelay - silentMs)
            { c0 with fallback := some (t', true) }
          else startPolling opts now c0
        else startPolling opts now c0
      else c
    | none => c
  | .pollTick now =>
    if c.nextPollAt = some now then
      if c.settled then { c with nextPollAt := none }
      else
        { c with nextPollAt := some (now + opts.pollInterval)
                 pollPending := c.pollPending + 1 }
    else c
  | .pollResume _now r =>
    -- the continuation after `await this.opts.poll()`: note there is no
    -- settled re-check here, exactly as in the source
    if c.pollPending > 0 then
      let c := { c with pollPending := c.pollPending - 1 }
      match r with
      | .fail => c
      | .ok status previewUrl message =>
        if status == .ready && truthy previewUrl then
          emitReady (previewUrl.getD "") c
        else if status == .error then
          emitError (message.getD "Sandbox initialization failed") c
        else c
    else c
  | .deadlineFire now =>
    if c.deadline = some now then
      let c0 := { c with deadline := none }
      if c0.settled then c0
      else emitError "Sandbox initialization timed out" c0
    else c

/-- Run a watch: fold the events over the freshly initialized client. -/
def execClient (opts : COpts) (t0 : Nat) (events : List CEvent) : Client :=
  events.foldl (stepClient opts) (initClient opts t0)

/-- Count terminal (ready or error) events in an emission history. -/
def countTerminal (evs : List OwnerEv) : Nat :=
  (evs.filter fun e =>
    match e with
    | .ready _ => true
    | .error _ => true
    | .progress _ => false).length

/-- A client state is reachable for a watch started at `t0` when some event
sequence produces it. -/
def ReachableClient (opts : COpts) (t0 : Nat) (c : Client) : Prop :=
  ∃ events : List CEvent, execClient opts t0 events = c

/-- Invariant tying the fallback-timer chain to the watch start: the first
(outer) fallback callback is scheduled for exactly `t0 + pollFallbackDelay`;
the re-armed (inner) one only exists after push has delivered; and every
poll activation that happened while push had never delivered happened at
exactly `t0 + pollFallbackDelay`. -/
def ClientInv (opts : COpts) (t0 : Nat) (c : Client) : Prop :=
  (∀ t : Nat, c.fallback = some (t, false) → t = t0 + opts.pollFallbackDelay) ∧
    (∀ t : Nat, c.fallback = some (t, true) → c.wsHasDelivered = true) ∧
    (∀ e ∈ c.pollStartLog, e.2.1 = false → e.1 = t0 + opts.pollFallbackDelay)

end PreviewModel

/-! ## Concrete example traces, states and oracles used in instantiations -/

namespace SandboxModel

/-- One `startSandbox` call on an unseen id: launches the run. -/
def exLaunchTrace : List SEvent := [.startCall "a" "h" 0]

/-- The entry after `exLaunchTrace`: a fresh entry marked initializing. -/
def exRunningState : SandboxState :=
  { isInitialized := false
    isInitializing := true
    previewUrl := none
    currentStep := ""
    initError := none
    connections := []
    lastActivity := 0
    destroyTimer := none }

/-- Launch, then the run completes with url `https://u` at time 5. -/
def exReadyTrace : List SEvent :=
  [.startCall "a" "h" 0, .runReady "a" "https://u" 5]

/-- The entry after `exReadyTrace`. -/
def exReadyState : SandboxState :=
  { isInitialized := true
    isInitializing := false
    previewUrl := some "https://u"
    currentStep := "ready"
    initError := none
    connections := []
    lastActivity := 5
    destroyTimer := some (5 + SANDBOX_TTL_MS) }

/-- Launch, then the run fails with message `boom`. -/
def exFailedTrace : List SEvent :=
  [.startCall "a" "h" 0, .runFailed "a" "boom"]

/-- The entry after `exFailedTrace`. -/
def exFailedState : SandboxState :=
  { isInitialized := false
    isInitializing := false
    previewUrl := none
    currentStep := ""
    initError := some "boom"
    connections := []
    lastActivity := 0
    destroyTimer := none }

/-- A single bare status check on an unseen id. -/
def exIdleTrace : List SEvent := [.statusCheck "a" 0]

/-- An oracle whose recovery probe finds port 3001 already exposed. -/
def exOracleRecovered : InitOracle :=
  { probeR := .ok [3001]
    mkdirR := .ok ()
    writePkgR := .ok ()
    writeSrvR := .ok ()
    startProcR := .ok ()
    healthR := fun _ => .ok "status ok"
    exposeR := .ok "https://u" }

/-- An oracle for a full run whose expose call hits the already-exposed
conflict. -/
def exOracleConflict : InitOracle :=
  { probeR := .ok []
    mkdirR := .ok ()
    writePkgR := .ok ()
    writeSrvR := .ok ()
    startProcR := .ok ()
    healthR := fun _ => .ok "status ok"
    exposeR := .error "PortAlreadyExposedError: port 3001 is already exposed" }

/-- An oracle for a full run whose expose call fails for another reason. -/
def exOracleExposeFatal : InitOracle :=
  { probeR := .ok []
    mkdirR := .ok ()
    writePkgR := .ok ()
    writeSrvR := .ok ()
    startProcR := .ok ()
    healthR := fun _ => .ok "status ok"
    exposeR := .error "network unreachable" }

end SandboxModel

namespace PreviewModel

/-- An interleaving in which the push channel is silent for the first 5 s, the
poll interval issues a probe at t=10000, the push `ready` arrives while that
probe is in flight, and then the probe resolves with the (true) ready status:
the owner sees two `ready` events. -/
def exDupTrace : List CEvent :=
  [ .fallbackFire 5000
  , .pollTick 10000
  , .wsMsg 10001 (.ready "https://u")
  , .pollResume 10002 (.ok .ready (some "https://u") none) ]

/-- An interleaving with progress at t=4000, the escalation timer firing at
t=5000 (re-armed to t=9000 since push was recently alive), another progress at
t=8000, and the re-armed timer firing at t=9000: polling starts with push
silence of only 1000 ms. -/
def exRearmTrace : List CEvent :=
  [ .wsMsg 4000 (.progress "s1")
  , .fallbackFire 5000
  , .wsMsg 8000 (.progress "s2")
  , .fallbackFire 9000 ]

/-- A watch in which the push channel never delivers: the fallback fires at
t=5000 and polling starts. -/
def exSilentTrace : List CEvent := [.fallbackFire 5000]

end PreviewModel

/-! ## Lemmas: registry and counter updates -/

namespace SandboxModel

theorem setEntry_self (reg : Registry) (i : String) (s : SandboxState) :
    setEntry reg i s i = some s := by
  simp [setEntry]

theorem setEntry_ne (reg : Registry) (i : String) (s : SandboxState)
    {k : String} (h : k ≠ i) : setEntry reg i s k = reg k := by
  simp [setEntry, h]

theorem updEntry_self (reg : Registry) (i : String) (f : SandboxState → SandboxState) :
    updEntry reg i f i = Option.map f (reg i) := by
  simp [updEntry]

theorem updEntry_ne (reg : Registry) (i : String) (f : SandboxState → SandboxState)
    {k : String} (h : k ≠ i) : updEntry reg i f k = reg k := by
  simp [updEntry, h]

theorem delEntry_self (reg : Registry) (i : String) : delEntry reg i i = none := by
  simp [delEntry]

theorem delEntry_ne (reg : Registry) (i : String) {k : String} (h : k ≠ i) :
    delEntry reg i k = reg k := by
  simp [delEntry, h]

theorem bumpAt_self (f : String → Nat) (i : String) : bumpAt f i i = f i + 1 := by
  simp [bumpAt]

theorem bumpAt_ne (f : String → Nat) (i : String) {k : String} (h : k ≠ i) :
    bumpAt f i k = f k := by
  simp [bumpAt, h]

theorem decrAt_self (f : String → Nat) (i : String) : decrAt f i i = f i - 1 := by
  simp [decrAt]

theorem decrAt_ne (f : String → Nat) (i : String) {k : String} (h : k ≠ i) :
    decrAt f i k = f k := by
  simp [decrAt, h]

theorem zeroAt_self (f : String → Nat) (i : String) : zeroAt f i i = 0 := by
  simp [zeroAt]

theorem zeroAt_ne (f : String → Nat) (i : String) {k : String} (h : k ≠ i) :
    zeroAt f i k = f k := by
  simp [zeroAt, h]

theorem getOrCreateState_present {reg : Registry} {i : String} {s : SandboxState}
    (h : reg i = some s) (now : Nat) : getOrCreateState i now reg = (reg, s) := by
  simp [getOrCreateState, h]

theorem getOrCreateState_absent {reg : Registry} {i : String}
    (h : reg i = none) (now : Nat) :
    getOrCreateState i now reg =
      (setEntry reg i (freshState now), freshState now) := by
  simp [getOrCreateState, h]

/-! ## Lemmas: phase characterization (the `startSandbox` dispatch order) -/

theorem phase_ready_iff (s : SandboxState) :
    phase s = Phase.Ready ↔ (s.isInitialized && truthy s.previewUrl) = true := by
  by_cases h1 : (s.isInitialized && truthy s.previewUrl) = true
  · simp [phase, h1]
  · by_cases h2 : s.isInitializing = true
    · simp [phase, h1, h2]
    · by_cases h3 : truthy s.initError = true
      · simp [phase, h1, h2, h3]
      · simp [phase, h1, h2, h3]

theorem phase_initializing_iff (s : SandboxState) :
    phase s = Phase.Initializing ↔
      (s.isInitialized && truthy s.previewUrl) = false ∧ s.isInitializing = true := by
  by_cases h1 : (s.isInitialized && truthy s.previewUrl) = true
  · simp [phase, h1]
  · by_cases h2 : s.isInitializing = true
    · simp [phase, h1, h2, Bool.eq_false_iff.2 h1]
    · by_cases h3 : truthy s.initError = true
      · simp [phase, h1, h2, h3]
      · simp [phase, h1, h2, h3]

theorem phase_failed_iff (s : SandboxState) :
    phase s = Phase.Failed ↔
      (s.isInitialized && truthy s.previewUrl) = false ∧
        s.isInitializing = false ∧ truthy s.initError = true := by
  by_cases h1 : (s.isInitialized && truthy s.previewUrl) = true
  · simp [phase, h1]
  · by_cases h2 : s.isInitializing = true
    · simp [phase, h1, h2]
    · by_cases h3 : truthy s.initError = true
      · simp [phase, h1, h2, h3, Bool.eq_false_iff.2 h1, Bool.eq_false_iff.2 h2]
      · simp [phase, h1, h2, h3]

theorem phase_idle_iff (s : SandboxState) :
    phase s = Phase.Idle ↔
      (s.isInitialized && truthy s.previewUrl) = false ∧
        s.isInitializing = false ∧ truthy s.initError = false := by
  by_cases h1 : (s.isInitialized && truthy s.previewUrl) = true
  · simp [phase, h1]
  · by_cases h2 : s.isInitializing = true
    · simp [phase, h1, h2]
    · by_cases h3 : truthy s.initError = true
      · simp [phase, h1, h2, h3]
      · simp [phase, h1, h2, h3, Bool.eq_false_iff.2 h1, Bool.eq_false_iff.2 h2,
          Bool.eq_false_iff.2 h3]

/-! ## Lemmas: `startSandbox` branch equations -/

theorem startSandbox_ready_branch {reg : Registry} {i : String} {s : SandboxState}
    (h : reg i = some s) (host : String) (now : Nat)
    (hg : (s.isInitialized && truthy s.previewUrl) = true) :
    startSandbox i host now reg =
      { reg := touchSandbox i now reg
        res := { status := .ready, previewUrl := s.previewUrl
                 wsEndpoint := wsEndpointOf i, message := none }
        launched := false } := by
  simp [startSandbox, getOrCreateState_present h, hg]

theorem startSandbox_initializing_branch {reg : Registry} {i : String}
    {s : SandboxState} (h : reg i = some s) (host : String) (now : Nat)
    (hg1 : (s.isInitialized && truthy s.previewUrl) = false)
    (hg2 : s.isInitializing = true) :
    startSandbox i host now reg =
      { reg := reg
        res := { status := .initializing, previewUrl := none
                 wsEndpoint := wsEndpointOf i
                 message := some "Initialization already in progress" }
        launched := false } := by
  simp [startSandbox, getOrCreateState_present h, hg1, hg2]

theorem startSandbox_error_branch {reg : Registry} {i : String}
    {s : SandboxState} (h : reg i = some s) (host : String) (now : Nat)
    (hg1 : (s.isInitialized && truthy s.previewUrl) = false)
    (hg2 : s.isInitializing = false)
    (hg3 : truthy s.initError = true) :
    startSandbox i host now reg =
      { reg := reg
        res := { status := .error, previewUrl := none
                 wsEndpoint := wsEndpointOf i, message := s.initError }
        launched := false } := by
  simp [startSandbox, getOrCreateState_present h, hg1, hg2, hg3]

theorem startSandbox_launch_branch {reg : Registry} {i : String}
    {s : SandboxState} (h : reg i = some s) (host : String) (now : Nat)
    (hg1 : (s.isInitialized && truthy s.previewUrl) = false)
    (hg2 : s.isInitializing = false)
    (hg3 : truthy s.initError = false) :
    startSandbox i host now reg =
      { reg := updEntry reg i fun st => { st with isInitializing := true }
        res := { status := .initializing, previewUrl := none
                 wsEndpoint := wsEndpointOf i
                 message := some "Connect to WebSocket for progress updates" }
        launched := true } := by
  simp [startSandbox, getOrCreateState_present h, hg1, hg2, hg3]

theorem startSandbox_absent {reg : Registry} {i : String}
    (h : reg i = none) (host : String) (now : Nat) :
    startSandbox i host now reg =
      { reg := updEntry (setEntry reg i (freshState now)) i
                 fun st => { st with isInitializing := true }
        res := { status := .initializing, previewUrl := none
                 wsEndpoint := wsEndpointOf i
                 message := some "Connect to WebSocket for progress updates" }
        launched := true } := by
  simp [startSandbox, getOrCreateState_absent h, freshState, truthy]

end SandboxModel

/-! ## Lemmas: touch / markReady / markFailed pointwise effects -/

namespace SandboxModel

theorem touchSandbox_self (reg : Registry) (i : String) (now : Nat) :
    touchSandbox i now reg i =
      Option.map
        (fun s => { s with lastActivity := now
                           destroyTimer := some (now + SANDBOX_TTL_MS) })
        (reg i) := by
  cases h : reg i <;>
    simp [touchSandbox, scheduleDestroy, updEntry, h]

theorem touchSandbox_ne (reg : Registry) (i : String) (now : Nat)
    {k : String} (h : k ≠ i) : touchSandbox i now reg k = reg k := by
  simp [touchSandbox, scheduleDestroy, updEntry, h]

theorem markReady_self (reg : Registry) (i url : String) (now : Nat) :
    markReady i url now reg i =
      Option.map
        (fun s => { s with previewUrl := some url
                           isInitialized := true
                           isInitializing := false
                           currentStep := "ready"
                           lastActivity := now
                           destroyTimer := some (now + SANDBOX_TTL_MS) })
        (reg i) := by
  cases h : reg i <;>
    simp [markReady, touchSandbox, scheduleDestroy, updEntry, h]

theorem markReady_ne (reg : Registry) (i url : String) (now : Nat)
    {k : String} (h : k ≠ i) : markReady i url now reg k = reg k := by
  simp [markReady, touchSandbox, scheduleDestroy, updEntry, h]

theorem markFailed_self (reg : Registry) (i msg : String) :
    markFailed i msg reg i =
      Option.map
        (fun s => { s with initError := some msg
                           isInitializing := false
                           currentStep := "" })
        (reg i) := by
  simp [markFailed, updEntry]

theorem markFailed_ne (reg : Registry) (i msg : String)
    {k : String} (h : k ≠ i) : markFailed i msg reg k = reg k := by
  simp [markFailed, updEntry, h]

theorem setStep_self (reg : Registry) (i step : String) :
    setStep i step reg i =
      Option.map (fun s => { s with currentStep := step }) (reg i) := by
  simp [setStep, updEntry]

theorem setStep_ne (reg : Registry) (i step : String)
    {k : String} (h : k ≠ i) : setStep i step reg k = reg k := by
  simp [setStep, updEntry, h]

/-! ## The system invariant holds on all reachable systems -/

theorem sysInv_init : SysInv initSystem := by
  intro k
  simp [initSystem, emptyRegistry, EntryInv]

theorem sysInv_step {sys : System} (h : SysInv sys) (e : SEvent) :
    SysInv (stepSys sys e) := by
  cases e with
  | startCall i host now =>
    cases hreg : sys.reg i with
    | none =>
      have hcnt := h i
      rw [hreg] at hcnt
      simp only [EntryInv] at hcnt
      have hout := startSandbox_absent hreg host now
      intro k
      by_cases hk : k = i
      · subst hk
        simp [stepSys, hout, EntryInv, updEntry_self, setEntry_self,
          bumpAt_self]
        refine Or.inr (Or.inl ?_)
        simp [shapeRunning, freshState, hcnt.1, hcnt.2]
      · simp [stepSys, hout, updEntry_ne _ _ _ hk, setEntry_ne _ _ _ hk,
          bumpAt_ne _ _ hk]
        exact h k
    | some s =>
      have hs := h i
      rw [hreg] at hs
      simp only [EntryInv] at hs
      rcases hs with hsh | hsh | hsh | hsh
      · -- Idle: launch branch
        obtain ⟨e1, e2, e3, e4, e5, e6, e7, e8⟩ := hsh
        have hg1 : (s.isInitialized && truthy s.previewUrl) = false := by
          simp [e1]
        have hg3 : truthy s.initError = false := by simp [e4, truthy]
        have hout := startSandbox_launch_branch hreg host now hg1 e2 hg3
        intro k
        by_cases hk : k = i
        · subst hk
          simp [stepSys, hout, EntryInv, updEntry_self, hreg, bumpAt_self]
          refine Or.inr (Or.inl ?_)
          simp [shapeRunning, e1, e3, e4, e6, e7, e8]
        · simp [stepSys, hout, updEntry_ne _ _ _ hk, bumpAt_ne _ _ hk]
          exact h k
      · -- Initializing: no second launch, nothing changes
        obtain ⟨e1, e2, e3, e4, e5, e6, e7⟩ := hsh
        have hg1 : (s.isInitialized && truthy s.previewUrl) = false := by
          simp [e1]
        have hout := startSandbox_initializing_branch hreg host now hg1 e2
        intro k
        simp [stepSys, hout]
        exact h k
      · -- Ready: touch only
        obtain ⟨e1, e2, e3, e4, e5, e6, e7, e8⟩ := hsh
        have hg : (s.isInitialized && truthy s.previewUrl) = true := by
          simp [e1, e3]
        have hout := startSandbox_ready_branch hreg host now hg
        intro k
        by_cases hk : k = i
        · subst hk
          simp [stepSys, hout, EntryInv, touchSandbox_self, hreg]
          refine Or.inr (Or.inr (Or.inl ?_))
          simp [shapeReady, e1, e2, e3, e4, e5, e7, e8]
        · simp [stepSys, hout, touchSandbox_ne _ _ _ hk]
          exact h k
      · -- Failed: error returned verbatim, nothing changes
        obtain ⟨e1, e2, e3, e4, e5, e6, e7, e8⟩ := hsh
        have hg1 : (s.isInitialized && truthy s.previewUrl) = false := by
          simp [e1]
        have hout := startSandbox_error_branch hreg host now hg1 e2 e4
        intro k
        simp [stepSys, hout]
        exact h k
  | statusCheck i now =>
    cases hreg : sys.reg i with
    | none =>
      have hcnt := h i
      rw [hreg] at hcnt
      simp only [EntryInv] at hcnt
      intro k
      by_cases hk : k = i
      · subst hk
        simp [stepSys, getState, getOrCreateState_absent hreg, setEntry_self,
          EntryInv]
        exact Or.inl (by simp [shapeIdle, freshState, hcnt.1, hcnt.2])
      · simp [stepSys, getState, getOrCreateState_absent hreg,
          setEntry_ne _ _ _ hk]
        exact h k
    | some s =>
      intro k
      simp [stepSys, getState, getOrCreateState_present hreg]
      exact h k
  | runProgress i step =>
    by_cases hrun : sys.running i > 0
    · have hs := h i
      cases hreg : sys.reg i with
      | none =>
        rw [hreg] at hs
        simp only [EntryInv] at hs
        omega
      | some s =>
        rw [hreg] at hs
        simp only [EntryInv] at hs
        rcases hs with hsh | hsh | hsh | hsh
        · exact absurd hsh.2.2.2.2.2.2.1 (by omega)
        · obtain ⟨e1, e2, e3, e4, e5, e6, e7⟩ := hsh
          intro k
          by_cases hk : k = i
          · subst hk
            simp [stepSys, hrun, EntryInv, setStep_self, hreg]
            refine Or.inr (Or.inl ?_)
            simp [shapeRunning, e1, e2, e3, e4, e5, e6, e7]
          · simp [stepSys, hrun, setStep_ne _ _ _ hk]
            exact h k
        · exact absurd hsh.2.2.2.2.2.2.1 (by omega)
        · exact absurd hsh.2.2.2.2.2.2.1 (by omega)
    · intro k
      simp [stepSys, hrun]
      exact h k
  | runReady i url now =>
    by_cases hrun : sys.running i > 0
    · by_cases hurl : url = ""
      · intro k
        simp [stepSys, hurl]
        exact h k
      · have hs := h i
        cases hreg : sys.reg i with
        | none =>
          rw [hreg] at hs
          simp only [EntryInv] at hs
          omega
        | some s =>
          rw [hreg] at hs
          simp only [EntryInv] at hs
          rcases hs with hsh | hsh | hsh | hsh
          · exact absurd hsh.2.2.2.2.2.2.1 (by omega)
          · obtain ⟨e1, e2, e3, e4, e5, e6, e7⟩ := hsh
            intro k
            by_cases hk : k = i
            · subst hk
              simp [stepSys, hrun, hurl, EntryInv, markReady_self, hreg,
                decrAt_self]
              refine Or.inr (Or.inr (Or.inl ?_))
              refine ⟨rfl, rfl, ?_, e4, rfl, rfl, by omega, e7⟩
              simp [truthy, hurl]
            · simp [stepSys, hrun, hurl, markReady_ne _ _ _ _ hk,
                decrAt_ne _ _ hk]
              exact h k
          · exact absurd hsh.2.2.2.2.2.2.1 (by omega)
          · exact absurd hsh.2.2.2.2.2.2.1 (by omega)
    · intro k
      simp [stepSys, hrun]
      exact h k
  | runFailed i msg =>
    by_cases hrun : sys.running i > 0
    · by_cases hmsg : msg = ""
      · intro k
        simp [stepSys, hmsg]
        exact h k
      · have hs := h i
        cases hreg : sys.reg i with
        | none =>
          rw [hreg] at hs
          simp only [EntryInv] at hs
          omega
        | some s =>
          rw [hreg] at hs
          simp only [EntryInv] at hs
          rcases hs with hsh | hsh | hsh | hsh
          · exact absurd hsh.2.2.2.2.2.2.1 (by omega)
          · obtain ⟨e1, e2, e3, e4, e5, e6, e7⟩ := hsh
            intro k
            by_cases hk : k = i
            · subst hk
              simp [stepSys, hrun, hmsg, EntryInv, markFailed_self, hreg,
                decrAt_self]
              refine Or.inr (Or.inr (Or.inr ?_))
              refine ⟨e1, rfl, e3, ?_, rfl, e5, by omega, e7⟩
              simp [truthy, hmsg]
            · simp [stepSys, hrun, hmsg, markFailed_ne _ _ _ hk,
                decrAt_ne _ _ hk]
              exact h k
          · exact absurd hsh.2.2.2.2.2.2.1 (by omega)
          · exact absurd hsh.2.2.2.2.2.2.1 (by omega)
    · intro k
      simp [stepSys, hrun]
      exact h k
  | ttlFire i now =>
    cases hreg : sys.reg i with
    | none =>
      intro k
      simp [stepSys, hreg]
      exact h k
    | some s =>
      by_cases htimer : s.destroyTimer = some now
      · have hs := h i
        rw [hreg] at hs
        simp only [EntryInv] at hs
        rcases hs with hsh | hsh | hsh | hsh
        · rw [hsh.2.2.2.2.2.1] at htimer
          exact absurd htimer (by simp)
        · rw [hsh.2.2.2.2.1] at htimer
          exact absurd htimer (by simp)
        · obtain ⟨e1, e2, e3, e4, e5, e6, e7, e8⟩ := hsh
          intro k
          by_cases hk : k = i
          · subst hk
            simp [stepSys, hreg, htimer, EntryInv, destroySandbox,
              delEntry_self, zeroAt_self]
            exact e7
          · simp [stepSys, hreg, htimer, destroySandbox,
              delEntry_ne _ _ hk, zeroAt_ne _ _ hk]
            exact h k
        · rw [hsh.2.2.2.2.2.1] at htimer
          exact absurd htimer (by simp)
      · intro k
        simp [stepSys, hreg, htimer]
        exact h k

theorem sysInv_foldl (events : List SEvent) :
    ∀ sys : System, SysInv sys → SysInv (events.foldl stepSys sys) := by
  induction events with
  | nil => intro sys h; exact h
  | cons e es ih =>
    intro sys h
    exact ih (stepSys sys e) (sysInv_step h e)

theorem reachable_sysInv {sys : System} (h : ReachableSys sys) : SysInv sys := by
  obtain ⟨events, hev⟩ := h
  rw [← hev]
  exact sysInv_foldl events initSystem sysInv_init

end SandboxModel

/-! ## Client lemmas -/

namespace PreviewModel

theorem startPolling_fallback (opts : COpts) (now : Nat) (c : Client) :
    (startPolling opts now c).fallback = c.fallback := by
  simp only [startPolling]
  split <;> rfl

theorem startPolling_delivered (opts : COpts) (now : Nat) (c : Client) :
    (startPolling opts now c).wsHasDelivered = c.wsHasDelivered := by
  simp only [startPolling]
  split <;> rfl

theorem startPolling_log (opts : COpts) (now : Nat) (c : Client) :
    ∀ x ∈ (startPolling opts now c).pollStartLog,
      x ∈ c.pollStartLog ∨ x = (now, c.wsHasDelivered, c.lastWsProgressAt) := by
  intro x hx
  simp only [startPolling] at hx
  by_cases hp : c.nextPollAt.isSome = true
  · rw [if_pos hp] at hx
    exact Or.inl hx
  · rw [if_neg hp] at hx
    simp only [List.mem_append, List.mem_singleton] at hx
    rcases hx with hx | hx
    · exact Or.inl hx
    · exact Or.inr hx

theorem stopAll_fallback (c : Client) : (stopAll c).fallback = none := rfl

theorem stopAll_log (c : Client) : (stopAll c).pollStartLog = c.pollStartLog := rfl

theorem emitReady_fallback (u : String) (c : Client) :
    (emitReady u c).fallback = none := rfl

theorem emitReady_log (u : String) (c : Client) :
    (emitReady u c).pollStartLog = c.pollStartLog := rfl

theorem emitError_fallback (m : String) (c : Client) :
    (emitError m c).fallback = none := rfl

theorem emitError_log (m : String) (c : Client) :
    (emitError m c).pollStartLog = c.pollStartLog := rfl


theorem clientInv_init (opts : COpts) (t0 : Nat) :
    ClientInv opts t0 (initClient opts t0) := by
  refine ⟨?_, ?_, ?_⟩
  · intro t ht
    simp only [initClient] at ht
    simp at ht
    omega
  · intro t ht
    simp only [initClient] at ht
    simp at ht
  · intro x hx
    simp [initClient] at hx

theorem clientInv_step {opts : COpts} {t0 : Nat} {c : Client}
    (h : ClientInv opts t0 c) (e : CEvent) :
    ClientInv opts t0 (stepClient opts c e) := by
  obtain ⟨h1, h2, h3⟩ := h
  have hPoll : ∀ (now : Nat) (c' : Client),
      c'.fallback = none →
      c'.wsHasDelivered = c.wsHasDelivered →
      c'.pollStartLog = c.pollStartLog →
      (c.wsHasDelivered = false → now = t0 + opts.pollFallbackDelay) →
      ClientInv opts t0 (startPolling opts now c') := by
    intro now c' hfb hdel hlog hlow
    refine ⟨?_, ?_, ?_⟩
    · intro t ht
      rw [startPolling_fallback, hfb] at ht
      cases ht
    · intro t ht
      rw [startPolling_fallback, hfb] at ht
      cases ht
    · intro x hx hfalse
      rcases startPolling_log opts now c' x hx with hmem | heq
      · exact h3 x (hlog ▸ hmem) hfalse
      · subst heq
        have hdf : c.wsHasDelivered = false := by
          rw [← hdel]
          exact hfalse
        exact hlow hdf
  cases e with
  | wsMsg now m =>
    by_cases hopen : c.wsOpen = true
    · cases m with
      | progress step =>
        have hstep : stepClient opts c (.wsMsg now (.progress step)) =
            { c with wsHasDelivered := true
                     lastWsProgressAt := now
                     emitted := c.emitted ++ [.progress step] } := by
          simp [stepClient, hopen, substantive, handleMessage]
        rw [hstep]
        exact ⟨fun t ht => h1 t ht, fun t _ => rfl, fun x hx hf => h3 x hx hf⟩
      | ready url =>
        have hstep : stepClient opts c (.wsMsg now (.ready url)) =
            { c with wsHasDelivered := true
                     lastWsProgressAt := now
                     settled := true
                     deadline := none
                     fallback := none
                     nextPollAt := none
                     wsOpen := false
                     emitted := c.emitted ++ [.ready url] } := by
          simp [stepClient, hopen, substantive, handleMessage, emitReady,
            stopAll]
        rw [hstep]
        refine ⟨?_, ?_, fun x hx hf => h3 x hx hf⟩
        · intro t ht
          simp at ht
        · intro t ht
          simp at ht
      | error msg =>
        have hstep : stepClient opts c (.wsMsg now (.error msg)) =
            { c with wsHasDelivered := true
                     lastWsProgressAt := now
                     settled := true
                     deadline := none
                     fallback := none
                     nextPollAt := none
                     wsOpen := false
                     emitted := c.emitted ++ [.error msg] } := by
          simp [stepClient, hopen, substantive, handleMessage, emitError,
            stopAll]
        rw [hstep]
        refine ⟨?_, ?_, fun x hx hf => h3 x hx hf⟩
        · intro t ht
          simp at ht
        · intro t ht
          simp at ht
      | ack =>
        have hstep : stepClient opts c (.wsMsg now .ack) = c := by
          simp [stepClient, hopen, substantive, handleMessage]
        rw [hstep]
        exact ⟨h1, h2, h3⟩
    · have hstep : stepClient opts c (.wsMsg now m) = c := by
        simp [stepClient, hopen]
      rw [hstep]
      exact ⟨h1, h2, h3⟩
  | wsClosed now =>
    by_cases hopen : c.wsOpen = true
    · have hstep : stepClient opts c (.wsClosed now) =
          { c with wsOpen := false
                   wsReconnectAt :=
                     if c.settled then c.wsReconnectAt
                     else some (now + opts.wsReconnectDelay) } := by
        simp [stepClient, hopen]
      rw [hstep]
      exact ⟨fun t ht => h1 t ht, fun t ht => h2 t ht, fun x hx hf => h3 x hx hf⟩
    · have hstep : stepClient opts c (.wsClosed now) = c := by
        simp [stepClient, hopen]
      rw [hstep]
      exact ⟨h1, h2, h3⟩
  | wsReconnectFire now =>
    by_cases hrc : c.wsReconnectAt = some now
    · have hstep : stepClient opts c (.wsReconnectFire now) =
          { c with wsReconnectAt := none, wsOpen := true } := by
        simp [stepClient, hrc]
      rw [hstep]
      exact ⟨fun t ht => h1 t ht, fun t ht => h2 t ht, fun x hx hf => h3 x hx hf⟩
    · have hstep : stepClient opts c (.wsReconnectFire now) = c := by
        simp [stepClient, hrc]
      rw [hstep]
      exact ⟨h1, h2, h3⟩
  | fallbackFire now =>
    cases hfb : c.fallback with
    | none =>
      have hstep : stepClient opts c (.fallbackFire now) = c := by
        simp [stepClient, hfb]
      rw [hstep]
      exact ⟨h1, h2, h3⟩
    | some p =>
      obtain ⟨t, rearmed⟩ := p
      by_cases ht : t = now
      · by_cases hst : c.settled = true
        · have hstep : stepClient opts c (.fallbackFire now) =
              { c with fallback := none } := by
            simp [stepClient, hfb, ht, hst]
          rw [hstep]
          refine ⟨?_, ?_, fun x hx hf => h3 x hx hf⟩
          · intro t' ht'
            simp at ht'
          · intro t' ht'
            simp at ht'
        · cases rearmed with
          | true =>
            have hstep : stepClient opts c (.fallbackFire now) =
                startPolling opts now { c with fallback := none } := by
              simp [stepClient, hfb, ht, hst]
            rw [hstep]
            refine hPoll now { c with fallback := none } rfl rfl rfl ?_
            intro hdf
            have := h2 t hfb
            rw [this] at hdf
            cases hdf
          | false =>
            by_cases hdel : c.wsHasDelivered = true
            · by_cases hsil :
                  now - c.lastWsProgressAt < opts.pollFallbackDelay
              · have hstep : stepClient opts c (.fallbackFire now) =
                    { c with fallback := some (now + (opts.pollFallbackDelay - (now - c.lastWsProgressAt)), true) } := by
                  simp [stepClient, hfb, ht, hst, hdel, hsil]
                rw [hstep]
                refine ⟨?_, ?_, fun x hx hf => h3 x hx hf⟩
                · intro t' ht'
                  simp at ht'
                · intro t' _
                  exact hdel
              · have hstep : stepClient opts c (.fallbackFire now) =
                    startPolling opts now { c with fallback := none } := by
                  simp [stepClient, hfb, ht, hst, hdel, hsil]
                rw [hstep]
                refine hPoll now { c with fallback := none } rfl rfl rfl ?_
                intro hdf
                rw [hdel] at hdf
                cases hdf
            · have hstep : stepClient opts c (.fallbackFire now) =
                  startPolling opts now { c with fallback := none } := by
                simp [stepClient, hfb, ht, hst, hdel]
              rw [hstep]
              refine hPoll now { c with fallback := none } rfl rfl rfl ?_
              intro _
              rw [← ht]
              exact h1 t hfb
      · have hstep : stepClient opts c (.fallbackFire now) = c := by
          simp [stepClient, hfb, ht]
        rw [hstep]
        exact ⟨h1, h2, h3⟩
  | pollTick now =>
    by_cases hp : c.nextPollAt = some now
    · by_cases hst : c.settled = true
      · have hstep : stepClient opts c (.pollTick now) =
            { c with nextPollAt := none } := by
          simp [stepClient, hp, hst]
        rw [hstep]
        exact ⟨fun t ht => h1 t ht, fun t ht => h2 t ht,
          fun x hx hf => h3 x hx hf⟩
      · have hstep : stepClient opts c (.pollTick now) =
            { c with nextPollAt := some (now + opts.pollInterval)
                     pollPending := c.pollPending + 1 } := by
          simp [stepClient, hp, hst]
        rw [hstep]
        exact ⟨fun t ht => h1 t ht, fun t ht => h2 t ht,
          fun x hx hf => h3 x hx hf⟩
    · have hstep : stepClient opts c (.pollTick now) = c := by
        simp [stepClient, hp]
      rw [hstep]
      exact ⟨h1, h2, h3⟩
  | pollResume now r =>
    by_cases hp : c.pollPending > 0
    · cases r with
      | fail =>
        have hstep : stepClient opts c (.pollResume now .fail) =
            { c with pollPending := c.pollPending - 1 } := by
          simp [stepClient, hp]
        rw [hstep]
        exact ⟨fun t ht => h1 t ht, fun t ht => h2 t ht,
          fun x hx hf => h3 x hx hf⟩
      | ok status previewUrl message =>
        by_cases hready :
            (status == SandboxModel.StartStatus.ready &&
              SandboxModel.truthy previewUrl) = true
        · rw [Bool.and_eq_true, beq_iff_eq] at hready
          obtain ⟨hr1, hr2⟩ := hready
          subst hr1
          have hstep : stepClient opts c (.pollResume now (.ok SandboxModel.StartStatus.ready previewUrl message)) =
              { c with pollPending := c.pollPending - 1
                       settled := true
                       deadline := none
                       fallback := none
                       nextPollAt := none
                       wsOpen := false
                       emitted := c.emitted ++ [.ready (previewUrl.getD "")] } := by
            simp [stepClient, hp, hr2, emitReady, stopAll]
          rw [hstep]
          refine ⟨?_, ?_, fun x hx hf => h3 x hx hf⟩
          · intro t ht
            simp at ht
          · intro t ht
            simp at ht
        · by_cases herr : (status == SandboxModel.StartStatus.error) = true
          · rw [beq_iff_eq] at herr
            subst herr
            have hstep : stepClient opts c (.pollResume now (.ok SandboxModel.StartStatus.error previewUrl message)) =
                { c with pollPending := c.pollPending - 1
                         settled := true
                         deadline := none
                         fallback := none
                         nextPollAt := none
                         wsOpen := false
                         emitted := c.emitted ++
                           [.error (message.getD "Sandbox initialization failed")] } := by
              simp [stepClient, hp, emitError, stopAll]
            rw [hstep]
            refine ⟨?_, ?_, fun x hx hf => h3 x hx hf⟩
            · intro t ht
              simp at ht
            · intro t ht
              simp at ht
          · have hcond1 : (status == SandboxModel.StartStatus.ready &&
                SandboxModel.truthy previewUrl) = false :=
              Bool.eq_false_iff.2 hready
            have hcond2 : (status == SandboxModel.StartStatus.error) = false :=
              Bool.eq_false_iff.2 herr
            have hstep : stepClient opts c (.pollResume now (.ok status previewUrl message)) =
                { c with pollPending := c.pollPending - 1 } := by
              simp [stepClient, hp, hcond1, hcond2]
            rw [hstep]
            exact ⟨fun t ht => h1 t ht, fun t ht => h2 t ht,
              fun x hx hf => h3 x hx hf⟩
    · have hstep : stepClient opts c (.pollResume now r) = c := by
        simp [stepClient, hp]
      rw [hstep]
      exact ⟨h1, h2, h3⟩
  | deadlineFire now =>
    by_cases hd : c.deadline = some now
    · by_cases hst : c.settled = true
      · have hstep : stepClient opts c (.deadlineFire now) =
            { c with deadline := none } := by
          simp [stepClient, hd, hst]
        rw [hstep]
        exact ⟨fun t ht => h1 t ht, fun t ht => h2 t ht,
          fun x hx hf => h3 x hx hf⟩
      · have hstep : stepClient opts c (.deadlineFire now) =
            { c with deadline := none
                     settled := true
                     fallback := none
                     nextPollAt := none
                     wsOpen := false
                     emitted := c.emitted ++
                       [.error "Sandbox initialization timed out"] } := by
          simp [stepClient, hd, hst, emitError, stopAll]
        rw [hstep]
        refine ⟨?_, ?_, fun x hx hf => h3 x hx hf⟩
        · intro t ht
          simp at ht
        · intro t ht
          simp at ht
    · have hstep : stepClient opts c (.deadlineFire now) = c := by
        simp [stepClient, hd]
      rw [hstep]
      exact ⟨h1, h2, h3⟩

theorem clientInv_foldl (opts : COpts) (t0 : Nat) (events : List CEvent) :
    ∀ c : Client, ClientInv opts t0 c →
      ClientInv opts t0 (events.foldl (stepClient opts) c) := by
  induction events with
  | nil => intro c h; exact h
  | cons e es ih =>
    intro c h
    exact ih (stepClient opts c e) (clientInv_step h e)

theorem reachable_clientInv {opts : COpts} {t0 : Nat} {c : Client}
    (h : ReachableClient opts t0 c) : ClientInv opts t0 c := by
  obtain ⟨events, hev⟩ := h
  rw [← hev]
  exact clientInv_foldl opts t0 events (initClient opts t0)
    (clientInv_init opts t0)

end PreviewModel

/-! ## Lemmas: the provisioning run -/

namespace SandboxModel

theorem runSetup_ignores_probe (sandboxId host : String) (o : InitOracle)
    (x : Except String (List Nat)) :
    runSetup sandboxId host { o with probeR := x } = runSetup sandboxId host o :=
  rfl

theorem exposeCall_not_mem_replicate (n : Nat) :
    Action.exposeCall ∉ List.replicate n Action.healthCheck := by
  simp [List.mem_replicate]

theorem runSetup_expose_outcome {sandboxId host : String} {o : InitOracle}
    (hmem : Action.exposeCall ∈ (runSetup sandboxId host o).acts) :
    (runSetup sandboxId host o).outcome =
      (match o.exposeR with
       | .ok url => RunOutcome.ready url
       | .error msg =>
         if conflictMsg msg then RunOutcome.ready (recoveredUrl sandboxId host)
         else RunOutcome.failed msg) := by
  cases h1 : o.mkdirR with
  | error e =>
    simp [runSetup, h1] at hmem
  | ok u1 =>
  cases h2 : o.writePkgR with
  | error e =>
    simp [runSetup, h1, h2] at hmem
  | ok u2 =>
  cases h3 : o.writeSrvR with
  | error e =>
    simp [runSetup, h1, h2, h3] at hmem
  | ok u3 =>
  cases h4 : o.startProcR with
  | error e =>
    simp [runSetup, h1, h2, h3, h4] at hmem
  | ok u4 =>
  cases h5 : (healthLoop o.healthR 0 10).1 with
  | error e =>
    simp [runSetup, h1, h2, h3, h4, h5, List.mem_replicate] at hmem
  | ok b =>
    cases b with
    | false =>
      simp [runSetup, h1, h2, h3, h4, h5, List.mem_replicate] at hmem
    | true =>
      cases h6 : o.exposeR with
      | ok url =>
        simp [runSetup, h1, h2, h3, h4, h5, h6]
      | error msg =>
        by_cases hc : conflictMsg msg = true
        · simp [runSetup, h1, h2, h3, h4, h5, h6, hc]
        · simp [runSetup, h1, h2, h3, h4, h5, h6,
            Bool.eq_false_iff.2 hc]

theorem initRun_expose_outcome {sandboxId host : String} {o : InitOracle}
    (hmem : Action.exposeCall ∈ (initSandboxRun sandboxId host o).acts) :
    (initSandboxRun sandboxId host o).outcome =
        (runSetup sandboxId host o).outcome ∧
      Action.exposeCall ∈ (runSetup sandboxId host o).acts := by
  cases h : o.probeR with
  | ok ports =>
    by_cases hc : (3001 : Nat) ∈ ports
    · have heq : initSandboxRun sandboxId host o =
          ⟨.ready (recoveredUrl sandboxId host), [.probe]⟩ := by
        simp [initSandboxRun, h, hc]
      rw [heq] at hmem
      simp at hmem
    · have heq : initSandboxRun sandboxId host o =
          ⟨(runSetup sandboxId host o).outcome,
            .probe :: (runSetup sandboxId host o).acts⟩ := by
        simp [initSandboxRun, h, hc]
      rw [heq] at hmem ⊢
      refine ⟨rfl, ?_⟩
      simpa using hmem
  | error e =>
    have heq : initSandboxRun sandboxId host o =
        ⟨(runSetup sandboxId host o).outcome,
          .probe :: (runSetup sandboxId host o).acts⟩ := by
      simp [initSandboxRun, h]
    rw [heq] at hmem ⊢
    refine ⟨rfl, ?_⟩
    simpa using hmem

end SandboxModel

/-! ## Claim theorems -/

namespace SandboxModel

/-- C1: for every id whose state is Ready (initialized with a truthy stable
`previewUrl`), every `startSandbox` call returns status `ready` with that same
url, refreshes the TTL (touch: `lastActivity := now`, destroy timer
rescheduled to `now + SANDBOX_TTL_MS`), changes nothing else, never launches
another provisioning run, and leaves the entry Ready with the same url. -/
theorem c1_start_on_ready_idempotent (reg : Registry) (sandboxId host : String)
    (now : Nat) (s : SandboxState)
    (hreg : reg sandboxId = some s) (hph : phase s = Phase.Ready) :
    (startSandbox sandboxId host now reg).res.status = StartStatus.ready ∧
    (startSandbox sandboxId host now reg).res.previewUrl = s.previewUrl ∧
    (startSandbox sandboxId host now reg).launched = false ∧
    (startSandbox sandboxId host now reg).reg sandboxId =
      some { s with lastActivity := now
                    destroyTimer := some (now + SANDBOX_TTL_MS) } ∧
    (∀ k, k ≠ sandboxId → (startSandbox sandboxId host now reg).reg k = reg k) ∧
    phase { s with lastActivity := now
                   destroyTimer := some (now + SANDBOX_TTL_MS) } = Phase.Ready := by
  have hg := (phase_ready_iff s).1 hph
  have hout := startSandbox_ready_branch hreg host now hg
  rw [hout]
  refine ⟨rfl, rfl, rfl, ?_, ?_, ?_⟩
  · show touchSandbox sandboxId now reg sandboxId =
      some { s with lastActivity := now
                    destroyTimer := some (now + SANDBOX_TTL_MS) }
    rw [touchSandbox_self, hreg]
    rfl
  · intro k hk
    show touchSandbox sandboxId now reg k = reg k
    exact touchSandbox_ne _ _ _ hk
  · rw [phase_ready_iff]
    simpa using hg

/-- Witness for C1 at a concrete Ready state reached by an actual trace. -/
theorem c1_witness :
    (startSandbox "a" "h" 7 (execSys exReadyTrace).reg).res.status =
      StartStatus.ready ∧
    (startSandbox "a" "h" 7 (execSys exReadyTrace).reg).res.previewUrl =
      some "https://u" ∧
    (startSandbox "a" "h" 7 (execSys exReadyTrace).reg).launched = false := by
  have h := c1_start_on_ready_idempotent (execSys exReadyTrace).reg "a" "h" 7
    exReadyState (by decide) (by decide)
  refine ⟨h.1, ?_, h.2.2.1⟩
  rw [h.2.1]
  rfl

/-- C2: at most one provisioning run is launched per id while its entry
exists (trace invariant on the launch counter); a `startSandbox` call that
finds the entry Initializing returns status `initializing`, launches nothing
and mutates nothing; a call launches the run exactly when the entry it finds
(or freshly creates) is Idle; and a launching call marks the entry
initializing.  Run-completion events in the trace semantics carry the
non-empty url / error message the code stores. -/
theorem c2_single_provisioning_run :
    (∀ sys : System, ReachableSys sys → ∀ sandboxId : String,
        sys.launched sandboxId ≤ 1) ∧
    (∀ (reg : Registry) (sandboxId host : String) (now : Nat) (s : SandboxState),
        reg sandboxId = some s → phase s = Phase.Initializing →
          (startSandbox sandboxId host now reg).res.status =
              StartStatus.initializing ∧
            (startSandbox sandboxId host now reg).launched = false ∧
            (startSandbox sandboxId host now reg).reg = reg) ∧
    (∀ (reg : Registry) (sandboxId host : String) (now : Nat),
        (startSandbox sandboxId host now reg).launched = true ↔
          phase (getOrCreateState sandboxId now reg).2 = Phase.Idle) ∧
    (∀ (reg : Registry) (sandboxId host : String) (now : Nat),
        (startSandbox sandboxId host now reg).launched = true →
          ∃ s', (startSandbox sandboxId host now reg).reg sandboxId = some s' ∧
            s'.isInitializing = true) := by
  refine ⟨?_, ?_, ?_, ?_⟩
  · intro sys h i
    have hinv := reachable_sysInv h i
    cases hm : sys.reg i with
    | none =>
      rw [hm] at hinv
      simp only [EntryInv] at hinv
      omega
    | some s =>
      rw [hm] at hinv
      simp only [EntryInv] at hinv
      rcases hinv with ⟨_, _, _, _, _, _, _, hl⟩ | ⟨_, _, _, _, _, _, hl⟩ |
        ⟨_, _, _, _, _, _, _, hl⟩ | ⟨_, _, _, _, _, _, _, hl⟩ <;> omega
  · intro reg i host now s hreg hph
    obtain ⟨hg1, hg2⟩ := (phase_initializing_iff s).1 hph
    have hout := startSandbox_initializing_branch hreg host now hg1 hg2
    rw [hout]
    exact ⟨rfl, rfl, rfl⟩
  · intro reg i host now
    cases hreg : reg i with
    | none =>
      rw [startSandbox_absent hreg, getOrCreateState_absent hreg]
      simp [phase, freshState, truthy]
    | some s =>
      rw [getOrCreateState_present hreg]
      by_cases hg1 : (s.isInitialized && truthy s.previewUrl) = true
      · rw [startSandbox_ready_branch hreg host now hg1]
        simp [phase_idle_iff, hg1]
      · by_cases hg2 : s.isInitializing = true
        · rw [startSandbox_initializing_branch hreg host now
            (Bool.eq_false_iff.2 hg1) hg2]
          simp [phase_idle_iff, hg2]
        · by_cases hg3 : truthy s.initError = true
          · rw [startSandbox_error_branch hreg host now
              (Bool.eq_false_iff.2 hg1) (Bool.eq_false_iff.2 hg2) hg3]
            simp [phase_idle_iff, hg3]
          · rw [startSandbox_launch_branch hreg host now
              (Bool.eq_false_iff.2 hg1) (Bool.eq_false_iff.2 hg2)
              (Bool.eq_false_iff.2 hg3)]
            simp [phase_idle_iff, Bool.eq_false_iff.2 hg1,
              Bool.eq_false_iff.2 hg2, Bool.eq_false_iff.2 hg3]
  · intro reg i host now
    cases hreg : reg i with
    | none =>
      rw [startSandbox_absent hreg]
      intro _
      refine ⟨{ freshState now with isInitializing := true }, ?_, rfl⟩
      show (updEntry (setEntry reg i (freshState now)) i
        fun st => { st with isInitializing := true }) i =
          some { freshState now with isInitializing := true }
      rw [updEntry_self, setEntry_self]
      rfl
    | some s =>
      by_cases hg1 : (s.isInitialized && truthy s.previewUrl) = true
      · rw [startSandbox_ready_branch hreg host now hg1]
        intro hfalse
        cases hfalse
      · by_cases hg2 : s.isInitializing = true
        · rw [startSandbox_initializing_branch hreg host now
            (Bool.eq_false_iff.2 hg1) hg2]
          intro hfalse
          cases hfalse
        · by_cases hg3 : truthy s.initError = true
          · rw [startSandbox_error_branch hreg host now
              (Bool.eq_false_iff.2 hg1) (Bool.eq_false_iff.2 hg2) hg3]
            intro hfalse
            cases hfalse
          · rw [startSandbox_launch_branch hreg host now
              (Bool.eq_false_iff.2 hg1) (Bool.eq_false_iff.2 hg2)
              (Bool.eq_false_iff.2 hg3)]
            intro _
            refine ⟨{ s with isInitializing := true }, ?_, rfl⟩
            show (updEntry reg i fun st => { st with isInitializing := true }) i =
              some { s with isInitializing := true }
            rw [updEntry_self, hreg]
            rfl

/-- Witness for C2 at concrete traces and registries. -/
theorem c2_witness :
    (execSys exFailedTrace).launched "a" ≤ 1 ∧
    (startSandbox "a" "h" 3 (execSys exLaunchTrace).reg).res.status =
      StartStatus.initializing ∧
    (startSandbox "a" "h" 3 (execSys exLaunchTrace).reg).launched = false ∧
    ((startSandbox "a" "h" 0 emptyRegistry).launched = true ↔
      phase (getOrCreateState "a" 0 emptyRegistry).2 = Phase.Idle) ∧
    (∃ s', (startSandbox "a" "h" 0 emptyRegistry).reg "a" = some s' ∧
      s'.isInitializing = true) := by
  refine ⟨c2_single_provisioning_run.1 _ ⟨exFailedTrace, rfl⟩ "a",
    (c2_single_provisioning_run.2.1 _ "a" "h" 3 exRunningState (by decide)
      (by decide)).1,
    (c2_single_provisioning_run.2.1 _ "a" "h" 3 exRunningState (by decide)
      (by decide)).2.1,
    c2_single_provisioning_run.2.2.1 emptyRegistry "a" "h" 0,
    c2_single_provisioning_run.2.2.2 emptyRegistry "a" "h" 0 (by decide)⟩

/-- C3: for every id whose state is Failed (truthy stored error), every
`startSandbox` call returns status `error` carrying exactly the stored error
message, changes the registry not at all, and never launches a run. -/
theorem c3_failed_returned_verbatim (reg : Registry) (sandboxId host : String)
    (now : Nat) (s : SandboxState)
    (hreg : reg sandboxId = some s) (hph : phase s = Phase.Failed) :
    (startSandbox sandboxId host now reg).res.status = StartStatus.error ∧
    (startSandbox sandboxId host now reg).res.message = s.initError ∧
    (startSandbox sandboxId host now reg).reg = reg ∧
    (startSandbox sandboxId host now reg).launched = false ∧
    (∃ m, s.initError = some m ∧
      (startSandbox sandboxId host now reg).res.message = some m) := by
  obtain ⟨hg1, hg2, hg3⟩ := (phase_failed_iff s).1 hph
  have hout := startSandbox_error_branch hreg host now hg1 hg2 hg3
  rw [hout]
  refine ⟨rfl, rfl, rfl, rfl, ?_⟩
  cases hie : s.initError with
  | none =>
    rw [hie] at hg3
    simp [truthy] at hg3
  | some m => exact ⟨m, rfl, rfl⟩

/-- Witness for C3 at a concrete Failed state reached by an actual trace. -/
theorem c3_witness :
    (startSandbox "a" "h" 3 (execSys exFailedTrace).reg).res.status =
      StartStatus.error ∧
    (startSandbox "a" "h" 3 (execSys exFailedTrace).reg).res.message =
      some "boom" ∧
    (startSandbox "a" "h" 3 (execSys exFailedTrace).reg).launched = false := by
  have h := c3_failed_returned_verbatim (execSys exFailedTrace).reg "a" "h" 3
    exFailedState (by decide) (by decide)
  refine ⟨h.1, ?_, h.2.2.2.1⟩
  rw [h.2.1]
  rfl

/-- C9 counterexample: one bare status check on an unseen id leaves the id
present in the registry with `destroyTimer = none` — an entry exists but no
reclaim timer does, so "a reclaim timer exists if and only if the id is
present" fails in the right-to-left direction. -/
theorem c9_timer_registry_counterexample :
    (execSys exIdleTrace).reg "a" = some (freshState 0) ∧
    (freshState 0).destroyTimer = none := by
  exact ⟨by decide, rfl⟩

/-- C9 amended: a reclaim timer can exist only inside a present entry, and
among present entries a timer is scheduled exactly for the Ready ones
(scheduled by touch); fresh Idle, Initializing and Failed entries are present
without a timer. -/
theorem c9_timer_iff_ready (sys : System) (h : ReachableSys sys)
    (sandboxId : String) (s : SandboxState)
    (hreg : sys.reg sandboxId = some s) :
    s.destroyTimer.isSome = true ↔ phase s = Phase.Ready := by
  have hinv := reachable_sysInv h sandboxId
  rw [hreg] at hinv
  simp only [EntryInv] at hinv
  rcases hinv with ⟨h1, h2, h3, h4, h5, h6, _, _⟩ | ⟨h1, h2, h3, h4, h5, _, _⟩ |
    ⟨h1, h2, h3, h4, h5, h6, _, _⟩ | ⟨h1, h2, h3, h4, h5, h6, _, _⟩
  · simp [h6, phase_ready_iff, h1]
  · simp [h5, phase_ready_iff, h1]
  · simp [h6, phase_ready_iff, h1, h3]
  · simp [h6, phase_ready_iff, h1]

/-- Witness for the amended C9 at a concrete Ready entry. -/
theorem c9_witness :
    exReadyState.destroyTimer.isSome = true ↔ phase exReadyState = Phase.Ready :=
  c9_timer_iff_ready _ ⟨exReadyTrace, rfl⟩ "a" exReadyState (by decide)

/-- C10: `getState` and `getConnections` are not pure — on an id with no
registry entry each inserts a fresh Idle entry (no destroy timer scheduled)
as a side effect, leaving other ids untouched. -/
theorem c10_get_state_not_pure (reg : Registry) (sandboxId : String) (now : Nat)
    (h : reg sandboxId = none) :
    (getState sandboxId now reg).1 sandboxId = some (freshState now) ∧
    (getConnections sandboxId now reg).1 sandboxId = some (freshState now) ∧
    (freshState now).destroyTimer = none ∧
    phase (freshState now) = Phase.Idle ∧
    (∀ k, k ≠ sandboxId → (getState sandboxId now reg).1 k = reg k) := by
  refine ⟨?_, ?_, rfl, ?_, ?_⟩
  · simp [getState, getOrCreateState_absent h, setEntry_self]
  · simp [getConnections, getOrCreateState_absent h, setEntry_self]
  · simp [phase, freshState, truthy]
  · intro k hk
    simp [getState, getOrCreateState_absent h, setEntry_ne _ _ _ hk]

/-- Witness for C10 on the empty registry. -/
theorem c10_witness :
    (getState "a" 0 emptyRegistry).1 "a" = some (freshState 0) ∧
    (getConnections "a" 0 emptyRegistry).1 "a" = some (freshState 0) :=
  ⟨(c10_get_state_not_pure emptyRegistry "a" 0 rfl).1,
   (c10_get_state_not_pure emptyRegistry "a" 0 rfl).2.1⟩

end SandboxModel

namespace SandboxModel

/-- C8: the ws route replays exactly the current snapshot to a new
subscriber: a `ready` event carrying the stored url when the entry is Ready,
an `error` event carrying the stored message when Failed, a `progress` event
with the current step when Initializing with progress, and nothing at all
(in particular no `connected` acknowledgment — `wsReplay` is the route's
entire send behavior) when Idle or Initializing with no progress yet. -/
theorem c8_subscribe_replay (sys : System) (h : ReachableSys sys)
    (sandboxId : String) (now : Nat) (s : SandboxState)
    (hreg : sys.reg sandboxId = some s) :
    (handleWsGet sandboxId now sys.reg).2 = wsReplay (publicOf s) ∧
    (phase s = Phase.Ready →
      ∃ u, s.previewUrl = some u ∧
        wsReplay (publicOf s) = some (WsOut.ready u)) ∧
    (phase s = Phase.Failed →
      ∃ m, s.initError = some m ∧
        wsReplay (publicOf s) = some (WsOut.error m)) ∧
    (phase s = Phase.Initializing → s.currentStep ≠ "" →
      wsReplay (publicOf s) = some (WsOut.progress s.currentStep)) ∧
    ((phase s = Phase.Idle ∨ (phase s = Phase.Initializing ∧ s.currentStep = "")) →
      wsReplay (publicOf s) = none) := by
  have hroute : (handleWsGet sandboxId now sys.reg).2 = wsReplay (publicOf s) := by
    simp [handleWsGet, getConnections, getState, getOrCreateState_present hreg]
  have hinv := reachable_sysInv h sandboxId
  rw [hreg] at hinv
  simp only [EntryInv] at hinv
  rcases hinv with ⟨h1, h2, h3, h4, h5, h6, _, _⟩ | ⟨h1, h2, h3, h4, h5, _, _⟩ |
    ⟨h1, h2, h3, h4, h5, h6, _, _⟩ | ⟨h1, h2, h3, h4, h5, h6, _, _⟩
  · -- Idle entry
    have hph : phase s = Phase.Idle := by
      rw [phase_idle_iff]
      exact ⟨by simp [h1], h2, by simp [h4, truthy]⟩
    refine ⟨hroute, ?_, ?_, ?_, ?_⟩
    · intro hr
      rw [hph] at hr
      cases hr
    · intro hr
      rw [hph] at hr
      cases hr
    · intro hr
      rw [hph] at hr
      cases hr
    · intro _
      simp [wsReplay, publicOf, h1, h4, h5, truthy]
  · -- Initializing entry
    have hph : phase s = Phase.Initializing := by
      rw [phase_initializing_iff]
      exact ⟨by simp [h1], h2⟩
    refine ⟨hroute, ?_, ?_, ?_, ?_⟩
    · intro hr
      rw [hph] at hr
      cases hr
    · intro hr
      rw [hph] at hr
      cases hr
    · intro _ hstep
      simp [wsReplay, publicOf, h1, h4, truthy, hstep]
    · intro hd
      rcases hd with hd | ⟨_, hstep⟩
      · rw [hph] at hd
        cases hd
      · simp [wsReplay, publicOf, h1, h4, truthy, hstep]
  · -- Ready entry
    have hph : phase s = Phase.Ready := by
      rw [phase_ready_iff]
      simp [h1, h3]
    refine ⟨hroute, ?_, ?_, ?_, ?_⟩
    · intro _
      cases hu : s.previewUrl with
      | none =>
        rw [hu] at h3
        simp [truthy] at h3
      | some u =>
        refine ⟨u, rfl, ?_⟩
        have h3' : truthy (some u) = true := hu ▸ h3
        simp [wsReplay, publicOf, h1, hu, h3']
    · intro hr
      rw [hph] at hr
      cases hr
    · intro hr
      rw [hph] at hr
      cases hr
    · intro hd
      rcases hd with hd | ⟨hd, _⟩ <;> rw [hph] at hd <;> cases hd
  · -- Failed entry
    have hph : phase s = Phase.Failed := by
      rw [phase_failed_iff]
      exact ⟨by simp [h1], h2, h4⟩
    refine ⟨hroute, ?_, ?_, ?_, ?_⟩
    · intro hr
      rw [hph] at hr
      cases hr
    · intro _
      cases hm : s.initError with
      | none =>
        rw [hm] at h4
        simp [truthy] at h4
      | some m =>
        refine ⟨m, rfl, ?_⟩
        have h4' : truthy (some m) = true := hm ▸ h4
        simp [wsReplay, publicOf, h1, hm, h4']
    · intro hr
      rw [hph] at hr
      cases hr
    · intro hd
      rcases hd with hd | ⟨hd, _⟩ <;> rw [hph] at hd <;> cases hd

/-- Witness for C8: the replay at a concrete Ready entry and at a concrete
fresh Idle entry. -/
theorem c8_witness :
    wsReplay (publicOf exReadyState) = some (WsOut.ready "https://u") ∧
    wsReplay (publicOf (freshState 0)) = none := by
  have h1 := c8_subscribe_replay _ ⟨exReadyTrace, rfl⟩ "a" 9 exReadyState
    (by decide)
  have h2 := c8_subscribe_replay _ ⟨exIdleTrace, rfl⟩ "a" 9 (freshState 0)
    (by decide)
  constructor
  · obtain ⟨u, hu, hr⟩ := h1.2.1 (by decide)
    have hu' : some "https://u" = some u := hu
    injection hu' with hinj
    subst hinj
    exact hr
  · exact h2.2.2.2.2 (Or.inl (by decide))

/-- C4: every provisioning run performs the recovery probe before any setup
action; a successful probe that finds port 3001 short-circuits the run to
ready with the reconstructed url and performs no setup action at all; and a
failing probe is swallowed — the run proceeds exactly as if the probe had
found no exposed ports. -/
theorem c4_recovery_probe_first (sandboxId host : String) (o : InitOracle) :
    (initSandboxRun sandboxId host o).acts.head? = some Action.probe ∧
    (∀ ports : List Nat, o.probeR = .ok ports → (3001 : Nat) ∈ ports →
      initSandboxRun sandboxId host o =
        ⟨RunOutcome.ready (recoveredUrl sandboxId host), [Action.probe]⟩) ∧
    (∀ e : String,
      initSandboxRun sandboxId host { o with probeR := .error e } =
        initSandboxRun sandboxId host { o with probeR := .ok [] }) := by
  refine ⟨?_, ?_, ?_⟩
  · cases h : o.probeR with
    | ok ports =>
      by_cases hc : (3001 : Nat) ∈ ports
      · simp [initSandboxRun, h, hc]
      · simp [initSandboxRun, h, hc]
    | error e => simp [initSandboxRun, h]
  · intro ports hp hc
    simp [initSandboxRun, hp, hc]
  · intro e
    simp [initSandboxRun, runSetup_ignores_probe]

/-- Witness for C4 at concrete oracles. -/
theorem c4_witness :
    initSandboxRun "a" "h" exOracleRecovered =
      ⟨RunOutcome.ready (recoveredUrl "a" "h"), [Action.probe]⟩ ∧
    initSandboxRun "a" "h" { exOracleConflict with probeR := .error "boom" } =
      initSandboxRun "a" "h" { exOracleConflict with probeR := .ok [] } ∧
    (initSandboxRun "a" "h" exOracleExposeFatal).acts.head? =
      some Action.probe :=
  ⟨(c4_recovery_probe_first "a" "h" exOracleRecovered).2.1 [3001] rfl (by decide),
   (c4_recovery_probe_first "a" "h" exOracleConflict).2.2 "boom",
   (c4_recovery_probe_first "a" "h" exOracleExposeFatal).1⟩

/-- C5: when a run reaches the expose call (it performed `exposeCall`) and
that call fails, the conflict condition (message mentioning
`PortAlreadyExposedError` or `already exposed`) still yields a ready outcome
with the reconstructed url, while any other expose failure is fatal and
yields the failed outcome carrying that message. -/
theorem c5_already_exposed_recovery (sandboxId host : String) (o : InitOracle)
    (msg : String)
    (hmem : Action.exposeCall ∈ (initSandboxRun sandboxId host o).acts)
    (hexp : o.exposeR = .error msg) :
    (conflictMsg msg = true →
      (initSandboxRun sandboxId host o).outcome =
        RunOutcome.ready (recoveredUrl sandboxId host)) ∧
    (conflictMsg msg = false →
      (initSandboxRun sandboxId host o).outcome = RunOutcome.failed msg) := by
  obtain ⟨heq, hmem'⟩ := initRun_expose_outcome hmem
  rw [heq, runSetup_expose_outcome hmem', hexp]
  constructor
  · intro hc
    simp [hc]
  · intro hc
    simp [hc]

/-- Witness for C5: a conflicting expose failure converges to ready, a fatal
one fails with its message. -/
theorem c5_witness :
    (initSandboxRun "a" "h" exOracleConflict).outcome =
      RunOutcome.ready (recoveredUrl "a" "h") ∧
    (initSandboxRun "a" "h" exOracleExposeFatal).outcome =
      RunOutcome.failed "network unreachable" :=
  ⟨(c5_already_exposed_recovery "a" "h" exOracleConflict _ (by decide) rfl).1
      (by decide),
   (c5_already_exposed_recovery "a" "h" exOracleExposeFatal _ (by decide) rfl).2
      (by decide)⟩

end SandboxModel

namespace PreviewModel

/-- C6 (divergence demonstration): on the interleaving `exDupTrace` — the
poll interval issues a probe, the push channel then delivers `ready`
(settling the reconciler, emitting the first ready event, cancelling its
timers and closing the socket), and the in-flight probe then resolves with
the ready status — the owner receives the ready event twice.  The resumed
continuation after `await this.opts.poll()` does not re-check `settled`, so
the post-settlement poll result is processed instead of discarded, contrary
to the settlement-is-terminal-and-idempotent contract. -/
theorem c6_duplicate_terminal_after_settlement :
    (execClient defaultCOpts 0 (exDupTrace.take 3)).settled = true ∧
    (execClient defaultCOpts 0 (exDupTrace.take 3)).emitted =
      [OwnerEv.ready "https://u"] ∧
    (execClient defaultCOpts 0 exDupTrace).emitted =
      [OwnerEv.ready "https://u", OwnerEv.ready "https://u"] ∧
    countTerminal (execClient defaultCOpts 0 exDupTrace).emitted = 2 := by
  refine ⟨?_, ?_, ?_, ?_⟩ <;> decide

/-- C7 counterexample: on `exRearmTrace` the push channel delivers progress
at t=4000 and t=8000; the escalation timer fires at t=5000, is re-armed once
to t=9000, and its re-armed callback starts polling at t=9000
unconditionally — at that moment push silence is 9000 - 8000 = 1000 ms,
below the 5000 ms escalation delay, so polling does not begin "once push
silence exceeds the escalation delay" as claimed. -/
theorem c7_escalation_counterexample :
    (execClient defaultCOpts 0 exRearmTrace).pollStartLog =
      [(9000, true, 8000)] ∧
    (execClient defaultCOpts 0 exRearmTrace).nextPollAt = some 14000 ∧
    (execClient defaultCOpts 0 exRearmTrace).settled = false ∧
    9000 - 8000 < defaultCOpts.pollFallbackDelay := by
  refine ⟨?_, ?_, ?_, ?_⟩ <;> decide

/-- C7 amended: (1) if push never delivered, every poll activation happens
exactly `pollFallbackDelay` after the watch start (so never earlier); (2) an
active poll interval survives every event that does not settle the
reconciler — in particular push progress never cancels it; (3) when the
escalation timer first fires while push is recently alive (delivered, silence
below the delay) it re-arms once for the remaining grace; (4) the re-armed
callback starts polling unconditionally when it fires unsettled — even if
push delivered again in the interim, so polling may begin with push silence
below the delay. -/
theorem c7_escalation_amended :
    (∀ (opts : COpts) (t0 : Nat) (events : List CEvent),
      ∀ x ∈ (execClient opts t0 events).pollStartLog,
        x.2.1 = false → x.1 = t0 + opts.pollFallbackDelay) ∧
    (∀ (opts : COpts) (c : Client) (e : CEvent),
      c.nextPollAt.isSome = true →
        (stepClient opts c e).nextPollAt.isSome = true ∨
          (stepClient opts c e).settled = true) ∧
    (∀ (opts : COpts) (c : Client) (now : Nat),
      c.fallback = some (now, false) → c.settled = false →
        c.wsHasDelivered = true →
        now - c.lastWsProgressAt < opts.pollFallbackDelay →
        stepClient opts c (.fallbackFire now) =
          { c with fallback := some (now + (opts.pollFallbackDelay - (now - c.lastWsProgressAt)), true) }) ∧
    (∀ (opts : COpts) (c : Client) (now : Nat),
      c.fallback = some (now, true) → c.settled = false →
        (stepClient opts c (.fallbackFire now)).nextPollAt.isSome = true) := by
  refine ⟨?_, ?_, ?_, ?_⟩
  · intro opts t0 events x hx hf
    exact (reachable_clientInv ⟨events, rfl⟩).2.2 x hx hf
  · intro opts c e hp
    cases e with
    | wsMsg now m =>
      by_cases hopen : c.wsOpen = true
      · cases m with
        | progress step =>
          left
          simpa [stepClient, hopen, substantive, handleMessage] using hp
        | ready url =>
          right
          simp [stepClient, hopen, substantive, handleMessage, emitReady,
            stopAll]
        | error msg =>
          right
          simp [stepClient, hopen, substantive, handleMessage, emitError,
            stopAll]
        | ack =>
          left
          simpa [stepClient, hopen, substantive, handleMessage] using hp
      · left
        simpa [stepClient, hopen] using hp
    | wsClosed now =>
      by_cases hopen : c.wsOpen = true
      · left
        simpa [stepClient, hopen] using hp
      · left
        simpa [stepClient, hopen] using hp
    | wsReconnectFire now =>
      by_cases hrc : c.wsReconnectAt = some now
      · left
        simpa [stepClient, hrc] using hp
      · left
        simpa [stepClient, hrc] using hp
    | fallbackFire now =>
      cases hfb : c.fallback with
      | none =>
        left
        simpa [stepClient, hfb] using hp
      | some p =>
        obtain ⟨t, rearmed⟩ := p
        by_cases ht : t = now
        · by_cases hst : c.settled = true
          · right
            simp [stepClient, hfb, ht, hst]
          · left
            cases rearmed with
            | true =>
              simp [stepClient, hfb, ht, hst, startPolling, hp]
            | false =>
              by_cases hdel : c.wsHasDelivered = true
              · by_cases hsil :
                    now - c.lastWsProgressAt < opts.pollFallbackDelay
                · simpa [stepClient, hfb, ht, hst, hdel, hsil] using hp
                · simp [stepClient, hfb, ht, hst, hdel, hsil, startPolling,
                    hp]
              · simp [stepClient, hfb, ht, hst, hdel, startPolling, hp]
        · left
          simpa [stepClient, hfb, ht] using hp
    | pollTick now =>
      by_cases hpt : c.nextPollAt = some now
      · by_cases hst : c.settled = true
        · right
          simp [stepClient, hpt, hst]
        · left
          simp [stepClient, hpt, hst]
      · left
        simpa [stepClient, hpt] using hp
    | pollResume now r =>
      by_cases hpp : c.pollPending > 0
      · cases r with
        | fail =>
          left
          simpa [stepClient, hpp] using hp
        | ok status previewUrl message =>
          by_cases hready : (status == SandboxModel.StartStatus.ready &&
              SandboxModel.truthy previewUrl) = true
          · rw [Bool.and_eq_true, beq_iff_eq] at hready
            obtain ⟨hr1, hr2⟩ := hready
            subst hr1
            right
            simp [stepClient, hpp, hr2, emitReady, stopAll]
          · by_cases herr :
                (status == SandboxModel.StartStatus.error) = true
            · rw [beq_iff_eq] at herr
              subst herr
              right
              simp [stepClient, hpp, emitError, stopAll,
                Bool.eq_false_iff.2 hready]
            · left
              simpa [stepClient, hpp, Bool.eq_false_iff.2 hready,
                Bool.eq_false_iff.2 herr] using hp
      · left
        simpa [stepClient, hpp] using hp
    | deadlineFire now =>
      by_cases hd : c.deadline = some now
      · by_cases hst : c.settled = true
        · left
          simpa [stepClient, hd, hst] using hp
        · right
          simp [stepClient, hd, hst, emitError, stopAll]
      · left
        simpa [stepClient, hd] using hp
  · intro opts c now hfb hst hdel hsil
    simp [stepClient, hfb, hst, hdel, hsil]
  · intro opts c now hfb hst
    by_cases hpoll : c.nextPollAt.isSome = true
    · simp [stepClient, hfb, hst, startPolling, hpoll]
    · simp [stepClient, hfb, hst, startPolling, hpoll]

/-- Witness for the amended C7 at concrete clients and events. -/
theorem c7_witness :
    ((5000 : Nat), false, (0 : Nat)).1 = 0 + defaultCOpts.pollFallbackDelay ∧
    ((stepClient defaultCOpts (execClient defaultCOpts 0 exSilentTrace)
        (.wsMsg 6000 (.progress "s"))).nextPollAt.isSome = true ∨
      (stepClient defaultCOpts (execClient defaultCOpts 0 exSilentTrace)
        (.wsMsg 6000 (.progress "s"))).settled = true) ∧
    stepClient defaultCOpts
        (execClient defaultCOpts 0 [CEvent.wsMsg 4000 (.progress "s1")])
        (.fallbackFire 5000) =
      { execClient defaultCOpts 0 [CEvent.wsMsg 4000 (.progress "s1")] with
          fallback := some (9000, true) } ∧
    (stepClient defaultCOpts
        (execClient defaultCOpts 0
          [CEvent.wsMsg 4000 (.progress "s1"), CEvent.fallbackFire 5000])
        (.fallbackFire 9000)).nextPollAt.isSome = true := by
  refine ⟨?_, ?_, ?_, ?_⟩
  · exact c7_escalation_amended.1 defaultCOpts 0 exSilentTrace _ (by decide) rfl
  · exact c7_escalation_amended.2.1 defaultCOpts _ _ (by decide)
  · exact c7_escalation_amended.2.2.1 defaultCOpts _ 5000 (by decide)
      (by decide) (by decide) (by decide)
  · exact c7_escalation_amended.2.2.2 defaultCOpts _ 9000 (by decide)
      (by decide)

end PreviewModel
